import Mathlib

/-!
Verification of the generation core of the promptcraft-desktop repository:
the provider abstraction (a1111, openai, google, anthropic, grok, plus the
local comfyui/invokeai backends), the long-running-operation pollers, the
generation service with its output normalization, and the background job
processor over the job store.

All definitions are shallow embeddings of the Rust source under
src/src-tauri/src.  External effects (HTTP responses, the file system,
base64 decoding inputs, UUIDs) are supplied as explicit environment values;
all repository logic is concrete and executable.
-/

namespace Promptcraft

/-- Shallow embedding of serde_json::Value.  Numbers are modelled as
integers: no claim in this development depends on fractional values. -/
inductive Json where
  | null : Json
  | bool (b : Bool) : Json
  | num (n : Int) : Json
  | str (s : String) : Json
  | arr (xs : List Json) : Json
  | obj (fields : List (String × Json)) : Json
deriving Repr, Inhabited

namespace Json

/-- serde_json::Value::get on an object: first field with the given key. -/
def get (j : Json) (key : String) : Option Json :=
  match j with
  | .obj fields => lookupField fields key
  | _ => none
where
  lookupField : List (String × Json) → String → Option Json
    | [], _ => none
    | (k, v) :: rest, key => if k = key then some v else lookupField rest key

/-- Value::as_str. -/
def asStr : Json → Option String
  | .str s => some s
  | _ => none

/-- Value::as_bool. -/
def asBool : Json → Option Bool
  | .bool b => some b
  | _ => none

/-- Value::as_i64 / as_u64 / as_f64 (collapsed onto the integer model). -/
def asNum : Json → Option Int
  | .num n => some n
  | _ => none

/-- Value::as_array. -/
def asArr : Json → Option (List Json)
  | .arr xs => some xs
  | _ => none

end Json

/-! ### String helpers mirroring the Rust std string operations used. -/

/-- str::splitn(2, c): metadata before the first occurrence of the
character, payload after it; none when the character is absent. -/
def splitFirstChar (c : Char) : List Char → Option (List Char × List Char)
  | [] => none
  | x :: xs =>
    if x = c then some ([], xs)
    else
      match splitFirstChar c xs with
      | some (a, b) => some (x :: a, b)
      | none => none

/-- str::trim_start_matches("data:"): repeatedly removes the leading
"data:" occurrences. -/
def trimDataHeader : List Char → List Char
  | 'd' :: 'a' :: 't' :: 'a' :: ':' :: rest => trimDataHeader rest
  | l => l

/-- str::split(c): the resulting list is always non-empty ("" splits to
one empty segment), which is why the source's unwrap_or never fires. -/
def splitOnChar (c : Char) : List Char → List (List Char)
  | [] => [[]]
  | x :: xs =>
    if x = c then [] :: splitOnChar c xs
    else
      match splitOnChar c xs with
      | s :: ss => (x :: s) :: ss
      | [] => [[x]]

/-- Whether the first list is a leading segment of the second. -/
def leadsList : List Char → List Char → Bool
  | [], _ => true
  | _ :: _, [] => false
  | a :: as, b :: bs => a = b && leadsList as bs

/-- Substring containment on character lists. -/
def containsSubL (needle : List Char) : List Char → Bool
  | [] => leadsList needle []
  | b :: bs => leadsList needle (b :: bs) || containsSubL needle bs

/-- str::contains(needle) as substring containment. -/
def containsSub (hay needle : String) : Bool :=
  containsSubL needle.toList hay.toList

/-- str::starts_with, computed structurally on the character lists. -/
def startsWithStr (s pre : String) : Bool :=
  leadsList pre.toList s.toList

/-! ### Reference-media Extractor (src/src-tauri/src/generation/utils.rs) -/

/-- extract_base64_from_data_url: validates the data: scheme, splits
metadata from payload at the first comma, strips the "data:" header
repeatedly, takes the first ';'-segment as the MIME type (falling back to
"image/png" — a fallback that can never fire because split always yields a
first segment), and requires "base64" to occur in the metadata. -/
def extract_base64_from_data_url (data_url : String) :
    Except String (String × String) :=
  if ¬ startsWithStr data_url "data:" then
    .error "Invalid data URL: must start with 'data:'"
  else
    match splitFirstChar ',' data_url.toList with
    | none => .error "Invalid data URL format: missing comma separator"
    | some (metadataL, payloadL) =>
      let metadata := String.mk metadataL
      let mimePart := trimDataHeader metadataL
      let mimeType := String.mk (((splitOnChar ';' mimePart).head?).getD "image/png".toList)
      if ¬ containsSub metadata "base64" then
        .error "Data URL is not base64 encoded"
      else
        .ok (mimeType, String.mk payloadL)

example : extract_base64_from_data_url "data:image/png;base64,iVBORw0KGgo" =
    .ok ("image/png", "iVBORw0KGgo") := rfl

example : extract_base64_from_data_url "data:;base64,abc" = .ok ("", "abc") := rfl
example : extract_base64_from_data_url "data:base64,abc" = .ok ("base64", "abc") := rfl
example : extract_base64_from_data_url "http://x.png" =
    .error "Invalid data URL: must start with 'data:'" := rfl
example : extract_base64_from_data_url "data:image/png;base64" =
    .error "Invalid data URL format: missing comma separator" := rfl
example : extract_base64_from_data_url "data:text/plain,hello" =
    .error "Data URL is not base64 encoded" := rfl

/-- utils::extract_reference_image: reads parameters.reference_image.data
and parses it as a data URL; any failure degrades to none. -/
def extract_reference_image (parameters : Json) : Option (String × String) :=
  match parameters.get "reference_image" with
  | none => none
  | some refImg =>
    match (refImg.get "data").bind Json.asStr with
    | none => none
    | some dataUrl =>
      match extract_base64_from_data_url dataUrl with
      | .ok p => some p
      | .error _ => none

/-- Modelled from the spec: `extract_reference_images` is referenced by the
Google provider but its definition is not among the source files.  Per
§4.3 it looks up the plural reference-image field in the parameter
document, parses each entry's data URL, and returns none (not an error)
when the field is absent; malformed entries degrade to being skipped. -/
def extract_reference_images (parameters : Json) : Option (List (String × String)) :=
  match (parameters.get "reference_images").bind Json.asArr with
  | none => none
  | some entries =>
    some (entries.filterMap fun entry =>
      match (entry.get "data").bind Json.asStr with
      | none => none
      | some dataUrl =>
        match extract_base64_from_data_url dataUrl with
        | .ok p => some p
        | .error _ => none)

/-! ### Core generation data model (src/src-tauri/src/generation/mod.rs) -/

/-- GenerationRequest. -/
structure GenerationRequest where
  prompt : String
  model : String
  parameters : Json
deriving Repr, Inhabited

/-- GenerationResult.  Provider constructors that omit file_path in the
source are modelled with file_path = none. -/
structure GenerationResult where
  output_url : Option String
  output_data : Option String
  file_path : Option String
  metadata : Json
deriving Repr, Inhabited

/-! ### Outbound HTTP as an explicit environment

Every remote call is a reqwest request; the remote side is modelled as a
queue of responses consumed in order.  Each provider returns, alongside
its result, the trace of requests it actually sent, so "no network I/O"
is the statement that this trace is empty. -/

/-- An outbound HTTP request as the providers build them (headers carry no
claim-relevant information and are omitted). -/
structure HttpReq where
  method : String
  url : String
  body : Option Json
deriving Repr, Inhabited

/-- A remote response: HTTP status, raw text (used verbatim in non-2xx
error messages) and parsed JSON body (used on success). -/
structure HttpResp where
  status : Nat
  text : String
  body : Json
deriving Repr, Inhabited

/-- reqwest StatusCode::is_success. -/
def is2xx (status : Nat) : Bool := 200 ≤ status && status < 300

/-- Sending a request: consumes the next queued response; an exhausted
queue models a transport-level reqwest failure (the `?` on send). -/
def sendReq (rs : List HttpResp) : Option (HttpResp × List HttpResp) :=
  match rs with
  | [] => none
  | r :: rest => some (r, rest)

/-- The outcome of a provider call: result plus the trace of sent
requests. -/
structure ProviderOut where
  result : Except String GenerationResult
  sent : List HttpReq
deriving Repr, Inhabited

/-! ### A1111 provider (src/src-tauri/src/generation/providers/a1111.rs) -/

structure A1111Config where
  api_url : String
deriving Repr, Inhabited

/-- A1111Provider::generate_image: config check, parameter extraction with
defaults, one POST to /sdapi/v1/txt2img, response parsed for the first
base64 image of the "images" array. -/
def a1111GenerateImage (config : Option A1111Config) (prompt : String)
    (params : Json) (rs : List HttpResp) : ProviderOut :=
  match config with
  | none => ⟨.error "A1111 API URL not configured", []⟩
  | some c =>
    let negative_prompt := ((params.get "negative_prompt").bind Json.asStr).getD ""
    let steps := ((params.get "steps").bind Json.asNum).getD 20
    let cfg_scale := ((params.get "cfg_scale").bind Json.asNum).getD 7
    let width := ((params.get "width").bind Json.asNum).getD 512
    let height := ((params.get "height").bind Json.asNum).getD 512
    let sampler_name := ((params.get "sampler").bind Json.asStr).getD "Euler a"
    let seed := ((params.get "seed").bind Json.asNum).getD (-1)
    let model := (params.get "model").bind Json.asStr
    let baseBody : List (String × Json) :=
      [("prompt", .str prompt), ("negative_prompt", .str negative_prompt),
       ("steps", .num steps), ("cfg_scale", .num cfg_scale),
       ("width", .num width), ("height", .num height),
       ("sampler_name", .str sampler_name), ("seed", .num seed),
       ("n_iter", .num 1), ("batch_size", .num 1)]
    let requestBody := Json.obj
      (match model with
       | some m => baseBody ++ [("override_settings", .obj [("sd_model_checkpoint", .str m)])]
       | none => baseBody)
    let req : HttpReq := ⟨"POST", c.api_url ++ "/sdapi/v1/txt2img", some requestBody⟩
    match sendReq rs with
    | none => ⟨.error "request failed", [req]⟩
    | some (resp, _) =>
      if ¬ is2xx resp.status then
        ⟨.error ("A1111 API error (" ++ toString resp.status ++ "): " ++ resp.text), [req]⟩
      else
        match (resp.body.get "images").bind Json.asArr with
        | none => ⟨.error "No images in response", [req]⟩
        | some images =>
          match images.head?.bind Json.asStr with
          | none => ⟨.error "Invalid image data", [req]⟩
          | some first_image =>
            let info := ((resp.body.get "info").bind Json.asStr).getD ""
            ⟨.ok
              { output_url := none
                output_data := some first_image
                file_path := none
                metadata := .obj
                  [("provider", .str "a1111"), ("info", .str info),
                   ("parameters", .obj
                     [("prompt", .str prompt), ("negative_prompt", .str negative_prompt),
                      ("steps", .num steps), ("cfg_scale", .num cfg_scale),
                      ("width", .num width), ("height", .num height),
                      ("sampler", .str sampler_name), ("seed", .num seed)])] },
              [req]⟩

/-- A1111Provider::generate: routes every request straight to
generate_image — the model string is never inspected. -/
def a1111Generate (config : Option A1111Config) (request : GenerationRequest)
    (rs : List HttpResp) : ProviderOut :=
  a1111GenerateImage config request.prompt request.parameters rs

/-! ### Anthropic provider (providers/anthropic.rs) -/

structure AnthropicConfig where
  api_key : String
deriving Repr, Inhabited

/-- serde parse of AnthropicResponse: id, content (blocks with required
"type" and optional "text"), model, optional stop_reason, usage. -/
def parseAnthropicResponse (body : Json) :
    Option (String × List (String × Option String) × String × Option String × Json) :=
  match (body.get "id").bind Json.asStr with
  | none => none
  | some id =>
    match (body.get "content").bind Json.asArr with
    | none => none
    | some blocks =>
      match blocks.mapM (fun b =>
          match (b.get "type").bind Json.asStr with
          | none => none
          | some ty => some (ty, (b.get "text").bind Json.asStr)) with
      | none => none
      | some content =>
        match (body.get "model").bind Json.asStr with
        | none => none
        | some model =>
          match body.get "usage" with
          | none => none
          | some usage =>
            some (id, content, model, (body.get "stop_reason").bind Json.asStr, usage)

/-- AnthropicProvider::generate_text: config check, one POST to
/v1/messages with a single user turn, content blocks' texts joined into
output_data, usage and stop reason copied into metadata. -/
def anthropicGenerateText (config : Option AnthropicConfig) (prompt model : String)
    (params : Json) (rs : List HttpResp) : ProviderOut :=
  match config with
  | none => ⟨.error "Anthropic API key not configured", []⟩
  | some _ =>
    let max_tokens := ((params.get "max_tokens").bind Json.asNum).getD 4096
    let temperature := ((params.get "temperature").bind Json.asNum).getD 1
    let requestBody := Json.obj
      [("model", .str model), ("max_tokens", .num max_tokens),
       ("temperature", .num temperature),
       ("messages", .arr [.obj [("role", .str "user"), ("content", .str prompt)]])]
    let req : HttpReq := ⟨"POST", "https://api.anthropic.com/v1/messages", some requestBody⟩
    match sendReq rs with
    | none => ⟨.error "request failed", [req]⟩
    | some (resp, _) =>
      if ¬ is2xx resp.status then
        ⟨.error ("Anthropic API error (" ++ toString resp.status ++ "): " ++ resp.text), [req]⟩
      else
        match parseAnthropicResponse resp.body with
        | none => ⟨.error "error decoding response body", [req]⟩
        | some (id, content, respModel, stop_reason, usage) =>
          let text := String.join (content.filterMap (·.2))
          ⟨.ok
            { output_url := none
              output_data := some text
              file_path := none
              metadata := .obj
                [("id", .str id), ("model", .str respModel),
                 ("stop_reason", match stop_reason with
                                 | some s => .str s
                                 | none => .null),
                 ("usage", usage)] },
            [req]⟩

/-- AnthropicProvider::generate: forwards every request to generate_text;
the model string is passed through without validation. -/
def anthropicGenerate (config : Option AnthropicConfig)
    (request : GenerationRequest) (rs : List HttpResp) : ProviderOut :=
  anthropicGenerateText config request.prompt request.model request.parameters rs

/-! ### Grok provider (providers/grok.rs) -/

structure GrokConfig where
  api_key : String
deriving Repr, Inhabited

/-- GrokProvider::generate_image: config check, one POST to the xAI image
endpoint, url/b64_json extracted from data[0]. -/
def grokGenerateImage (config : Option GrokConfig) (prompt : String)
    (params : Json) (rs : List HttpResp) : ProviderOut :=
  match config with
  | none => ⟨.error "xAI API key not configured", []⟩
  | some _ =>
    let n := min (((params.get "n").bind Json.asNum).getD 1) 10
    let response_format := ((params.get "response_format").bind Json.asStr).getD "url"
    let requestBody := Json.obj
      [("model", .str "grok-2-image"), ("prompt", .str prompt),
       ("n", .num n), ("response_format", .str response_format)]
    let req : HttpReq := ⟨"POST", "https://api.x.ai/v1/images/generations", some requestBody⟩
    match sendReq rs with
    | none => ⟨.error "request failed", [req]⟩
    | some (resp, _) =>
      if ¬ is2xx resp.status then
        ⟨.error ("xAI Grok API error (" ++ toString resp.status ++ "): " ++ resp.text), [req]⟩
      else
        let item := (resp.body.get "data").bind (fun d => d.asArr.bind List.head?)
        ⟨.ok
          { output_url := item.bind (fun i => (i.get "url").bind Json.asStr)
            output_data := item.bind (fun i => (i.get "b64_json").bind Json.asStr)
            file_path := none
            metadata := resp.body },
          [req]⟩

/-- GrokProvider::generate: dispatch over the supported and alias model
names; anything else is an unsupported-model error naming the value. -/
def grokGenerate (config : Option GrokConfig) (request : GenerationRequest)
    (rs : List HttpResp) : ProviderOut :=
  if request.model = "grok-2-image" ∨ request.model = "grok-2-image-1212" ∨
     request.model = "grok-image" ∨ request.model = "aurora" then
    grokGenerateImage config request.prompt request.parameters rs
  else if request.model = "grok-1" ∨ request.model = "grok" ∨ request.model = "flux" then
    grokGenerateImage config request.prompt request.parameters rs
  else
    ⟨.error ("Unsupported Grok model: " ++ request.model ++
      ". Use 'grok-2-image' for image generation."), []⟩

/-! ### OpenAI provider (providers/openai.rs) -/

structure OpenAIConfig where
  api_key : String
  organization : Option String
deriving Repr, Inhabited

/-- The outcome of one poller invocation: generation result, the sleep
durations performed (milliseconds, one per poll attempt, slept before the
GET), and the GETs issued. -/
structure PollOut where
  result : Except String GenerationResult
  sleeps : List Nat
  polls : List HttpReq
deriving Repr, Inhabited

/-- The terminal-success statuses of the Sora polling protocol. -/
def openaiDoneStatus (s : String) : Bool := s = "completed" || s = "succeeded"

/-- The terminal-failure statuses of the Sora polling protocol. -/
def openaiFailStatus (s : String) : Bool := s = "failed" || s = "error"

/-- The recognized in-progress statuses, the only ones that grow the
backoff delay. -/
def openaiProgressStatus (s : String) : Bool :=
  s = "processing" || s = "pending" || s = "running"

/-- The "status" field of a poll response, defaulting to "unknown". -/
def openaiPollStatus (body : Json) : String :=
  ((body.get "status").bind Json.asStr).getD "unknown"

/-- Sora's result-URL extraction: output, then video_url, then
result.url, first match wins. -/
def openaiExtractUrl (body : Json) : Option String :=
  (((body.get "output").orElse
    (fun _ => (body.get "video_url").orElse
      (fun _ => (body.get "result").bind (fun r => r.get "url")))).bind Json.asStr)

/-- The body of OpenAIProvider::poll_video_generation's for-loop, indexed
by remaining attempts (the source iterates attempt = 0..60): sleep delay,
GET the operation, fail on non-2xx, then dispatch on the status string;
recognized in-progress statuses double the delay (capped at 60000 ms),
unknown statuses only log and leave the delay unchanged. -/
def openaiPollLoop (operation_id : String) :
    Nat → Nat → List HttpResp → PollOut
  | 0, _, _ =>
    ⟨.error "Video generation timed out after 60 attempts", [], []⟩
  | fuel + 1, delay, rs =>
    let req : HttpReq := ⟨"GET", "https://api.openai.com/v1/videos/" ++ operation_id, none⟩
    match sendReq rs with
    | none => ⟨.error "request failed", [delay], [req]⟩
    | some (resp, rest) =>
      if ¬ is2xx resp.status then
        ⟨.error ("OpenAI Sora poll error (" ++ toString resp.status ++ "): " ++ resp.text),
         [delay], [req]⟩
      else
        let gen_status := openaiPollStatus resp.body
        if openaiDoneStatus gen_status then
          ⟨.ok
            { output_url := openaiExtractUrl resp.body
              output_data := none
              file_path := none
              metadata := resp.body },
            [delay], [req]⟩
        else if openaiFailStatus gen_status then
          ⟨.error ("Sora generation failed: " ++
              (((resp.body.get "error").bind Json.asStr).getD "Video generation failed")),
            [delay], [req]⟩
        else
          let newDelay :=
            if openaiProgressStatus gen_status then min (delay * 2) 60000 else delay
          let out := openaiPollLoop operation_id fuel newDelay rest
          ⟨out.result, delay :: out.sleeps, req :: out.polls⟩

/-- OpenAIProvider::poll_video_generation: config check, then the polling
loop with 60 attempts, an initial delay of 5000 ms and a 60000 ms cap. -/
def openaiPollVideoGeneration (config : Option OpenAIConfig)
    (operation_id : String) (rs : List HttpResp) : PollOut :=
  match config with
  | none => ⟨.error "OpenAI API key not configured", [], []⟩
  | some _ => openaiPollLoop operation_id 60 5000 rs

/-- OpenAIProvider::generate_image: config check, one POST to the image
endpoint, url/b64_json extracted from data[0]. -/
def openaiGenerateImage (config : Option OpenAIConfig) (prompt : String)
    (params : Json) (rs : List HttpResp) : ProviderOut :=
  match config with
  | none => ⟨.error "OpenAI API key not configured", []⟩
  | some _ =>
    let size := ((params.get "size").bind Json.asStr).getD "auto"
    let quality := ((params.get "quality").bind Json.asStr).getD "high"
    let n := ((params.get "n").bind Json.asNum).getD 1
    let requestBody := Json.obj
      [("model", .str "gpt-image-1"), ("prompt", .str prompt), ("n", .num n),
       ("size", .str size), ("quality", .str quality)]
    let req : HttpReq := ⟨"POST", "https://api.openai.com/v1/images/generations", some requestBody⟩
    match sendReq rs with
    | none => ⟨.error "request failed", [req]⟩
    | some (resp, _) =>
      if ¬ is2xx resp.status then
        ⟨.error ("OpenAI API error (" ++ toString resp.status ++ "): " ++ resp.text), [req]⟩
      else
        let item := (resp.body.get "data").bind (fun d => d.asArr.bind List.head?)
        ⟨.ok
          { output_url := item.bind (fun i => (i.get "url").bind Json.asStr)
            output_data := item.bind (fun i => (i.get "b64_json").bind Json.asStr)
            file_path := none
            metadata := resp.body },
          [req]⟩

/-- OpenAIProvider::generate_video: config check, one POST to the Sora
endpoint, operation id required, then the poller obtains the result. -/
def openaiGenerateVideo (config : Option OpenAIConfig) (prompt : String)
    (params : Json) (rs : List HttpResp) : ProviderOut :=
  match config with
  | none => ⟨.error "OpenAI API key not configured", []⟩
  | some c =>
    let duration := ((params.get "duration").bind Json.asNum).getD 5
    let resolution := ((params.get "resolution").bind Json.asStr).getD "1080p"
    let aspect_ratio := ((params.get "aspect_ratio").bind Json.asStr).getD "16:9"
    let requestBody := Json.obj
      [("model", .str "sora-2"), ("prompt", .str prompt), ("duration", .num duration),
       ("resolution", .str resolution), ("aspect_ratio", .str aspect_ratio)]
    let req : HttpReq := ⟨"POST", "https://api.openai.com/v1/videos", some requestBody⟩
    match sendReq rs with
    | none => ⟨.error "request failed", [req]⟩
    | some (resp, rest) =>
      if ¬ is2xx resp.status then
        ⟨.error ("OpenAI Sora API error (" ++ toString resp.status ++ "): " ++ resp.text), [req]⟩
      else
        match (resp.body.get "id").bind Json.asStr with
        | none => ⟨.error "No operation ID in Sora response", [req]⟩
        | some operation_id =>
          let out := openaiPollVideoGeneration (some c) operation_id rest
          ⟨out.result, req :: out.polls⟩

/-- OpenAIProvider::generate: dispatch over image models, video models and
deprecated DALL-E aliases; anything else is an unsupported-model error
naming the value. -/
def openaiGenerate (config : Option OpenAIConfig) (request : GenerationRequest)
    (rs : List HttpResp) : ProviderOut :=
  if request.model = "gpt-image-1" ∨ request.model = "gpt-image-1-mini" then
    openaiGenerateImage config request.prompt request.parameters rs
  else if request.model = "sora-2" ∨ request.model = "sora-2-pro" ∨
      request.model = "sora" then
    openaiGenerateVideo config request.prompt request.parameters rs
  else if request.model = "dall-e-3" ∨ request.model = "dall-e-2" then
    openaiGenerateImage config request.prompt request.parameters rs
  else
    ⟨.error ("Unsupported OpenAI model: " ++ request.model ++
      ". Use 'gpt-image-1' for images or 'sora-2' for videos."), []⟩

/-! ### Google provider (providers/google.rs) -/

structure GoogleConfig where
  api_key : String
  project_id : Option String
deriving Repr, Inhabited

/-- serde_json serialization of the Json model (compact form; the
pretty-printer's whitespace is not reproduced, which only affects the
human-readable tail of one Gemini error message). -/
def jsonToString : Json → String
  | .null => "null"
  | .bool true => "true"
  | .bool false => "false"
  | .num n => toString n
  | .str s => "\x22" ++ s ++ "\x22"
  | .arr xs => "[" ++ String.intercalate "," (xs.attach.map (fun x => jsonToString x.1)) ++ "]"
  | .obj fields => "\x7b" ++
      String.intercalate ","
        (fields.attach.map (fun f => "\x22" ++ f.1.1 ++ "\x22:" ++ jsonToString f.1.2)) ++
      "\x7d"
decreasing_by
  · have := List.sizeOf_lt_of_mem x.2
    simp only [Json.arr.sizeOf_spec]
    omega
  · have h1 := List.sizeOf_lt_of_mem f.2
    have h2 : sizeOf f.1.2 < sizeOf f.1 := by
      obtain ⟨a, b⟩ := f.1
      simp
    simp only [Json.obj.sizeOf_spec]
    omega

/-- Veo's "done" flag: a boolean field, absent treated as false. -/
def googleDone (body : Json) : Bool :=
  ((body.get "done").bind Json.asBool).getD false

/-- Veo's result-URL extraction: response (or result), then
predictions[0].videoUri / video_uri, then top-level aliases. -/
def googleExtractUrl (body : Json) : Option String :=
  (((body.get "response").orElse (fun _ => body.get "result")).bind (fun r =>
    ((r.get "predictions").bind (fun p => p.asArr.bind List.head?)).bind
        (fun pred => (pred.get "videoUri").orElse (fun _ => pred.get "video_uri"))
      |>.orElse (fun _ => r.get "videoUri")
      |>.orElse (fun _ => r.get "video_uri")
      |>.orElse (fun _ => r.get "output"))).bind Json.asStr

/-- The body of GoogleProvider::poll_video_generation's for-loop: sleep,
GET the operation, fail on non-2xx; when done, an embedded error object's
message fails the generation before any result extraction; otherwise the
delay grows by 5000 ms (capped at 60000 ms) and polling continues. -/
def googlePollLoop (operation_name : String) :
    Nat → Nat → List HttpResp → PollOut
  | 0, _, _ =>
    ⟨.error "Video generation timed out after 60 attempts", [], []⟩
  | fuel + 1, delay, rs =>
    let req : HttpReq :=
      ⟨"GET", "https://generativelanguage.googleapis.com/v1beta/models/" ++ operation_name, none⟩
    match sendReq rs with
    | none => ⟨.error "request failed", [delay], [req]⟩
    | some (resp, rest) =>
      if ¬ is2xx resp.status then
        ⟨.error ("Google Veo poll error (" ++ toString resp.status ++ "): " ++ resp.text),
         [delay], [req]⟩
      else
        if googleDone resp.body then
          match resp.body.get "error" with
          | some err =>
            ⟨.error ("Veo generation failed: " ++
                (((err.get "message").bind Json.asStr).getD "Video generation failed")),
              [delay], [req]⟩
          | none =>
            ⟨.ok
              { output_url := googleExtractUrl resp.body
                output_data := none
                file_path := none
                metadata := resp.body },
              [delay], [req]⟩
        else
          let out := googlePollLoop operation_name fuel (min (delay + 5000) 60000) rest
          ⟨out.result, delay :: out.sleeps, req :: out.polls⟩

/-- GoogleProvider::poll_video_generation: config check, then the polling
loop with 60 attempts, an initial delay of 10000 ms and a 60000 ms cap. -/
def googlePollVideoGeneration (config : Option GoogleConfig)
    (operation_name : String) (rs : List HttpResp) : PollOut :=
  match config with
  | none => ⟨.error "Google API key not configured", [], []⟩
  | some _ => googlePollLoop operation_name 60 10000 rs

/-- GoogleProvider::generate_image: config check, multi-part Gemini
request (prompt text plus up to 14 reference images, optional search
tool), one POST, then the first inlineData part of the first candidate is
the result. -/
def googleGenerateImage (config : Option GoogleConfig) (model prompt : String)
    (params : Json) (rs : List HttpResp) : ProviderOut :=
  match config with
  | none => ⟨.error "Google API key not configured", []⟩
  | some _ =>
    let n := ((params.get "n").bind Json.asNum).getD 1
    let resolution := (params.get "resolution").bind Json.asStr
    let use_google_search := ((params.get "google_search").bind Json.asBool).getD false
    let response_modalities : List Json :=
      if use_google_search then [.str "TEXT", .str "IMAGE"] else [.str "IMAGE"]
    let generationConfig : List (String × Json) :=
      [("candidateCount", .num n), ("responseModalities", .arr response_modalities)]
    let generationConfig :=
      if containsSub model "gemini-3" || containsSub model "pro-image" then
        match resolution with
        | some res => generationConfig ++ [("resolution", .str res)]
        | none => generationConfig
      else generationConfig
    let parts : List Json := [.obj [("text", .str prompt)]]
    let parts :=
      match extract_reference_images params with
      | some images =>
        parts ++ (images.take 14).map (fun p =>
          .obj [("inlineData", .obj [("mimeType", .str p.1), ("data", .str p.2)])])
      | none => parts
    let requestBody : List (String × Json) :=
      [("contents", .arr [.obj [("parts", .arr parts)]]),
       ("generationConfig", .obj generationConfig)]
    let requestBody :=
      if use_google_search then
        requestBody ++ [("tools", .arr [.obj [("google_search", .obj [])]])]
      else requestBody
    let req : HttpReq :=
      ⟨"POST",
       "https://generativelanguage.googleapis.com/v1beta/models/" ++ model ++ ":generateContent",
       some (.obj requestBody)⟩
    match sendReq rs with
    | none => ⟨.error "request failed", [req]⟩
    | some (resp, _) =>
      if ¬ is2xx resp.status then
        ⟨.error ("Google Nano Banana API error (" ++ toString resp.status ++ "): " ++ resp.text),
         [req]⟩
      else
        match (resp.body.get "candidates").bind Json.asArr with
        | none =>
          ⟨.error ("No candidates in Gemini response. Full response: " ++ jsonToString resp.body),
           [req]⟩
        | some candidates =>
          match candidates.head? with
          | none => ⟨.error "No candidates in response", [req]⟩
          | some first_candidate =>
            match ((first_candidate.get "content").bind (fun c => c.get "parts")).bind Json.asArr with
            | none => ⟨.error "No content.parts in candidate", [req]⟩
            | some parts =>
              match parts.firstM (fun part =>
                  ((part.get "inlineData").bind (fun i => i.get "data")).bind Json.asStr) with
              | none => ⟨.error "No inlineData.data found in response parts", [req]⟩
              | some image_data =>
                ⟨.ok
                  { output_url := none
                    output_data := some image_data
                    file_path := none
                    metadata := resp.body },
                  [req]⟩

/-- GoogleProvider::generate_video: config check, one POST to the Veo
long-running endpoint (the target model read from the parameter bag, not
from the request's model field), operation name required, then the
poller obtains the result. -/
def googleGenerateVideo (config : Option GoogleConfig) (prompt : String)
    (params : Json) (rs : List HttpResp) : ProviderOut :=
  match config with
  | none => ⟨.error "Google API key not configured", []⟩
  | some c =>
    let aspect_ratio :=
      (((params.get "aspect_ratio").orElse (fun _ => params.get "aspectRatio")).bind
        Json.asStr).getD "16:9"
    let resolution := ((params.get "resolution").bind Json.asStr).getD "720p"
    let duration :=
      (((params.get "duration").orElse (fun _ => params.get "durationSeconds")).bind
        Json.asNum).getD 8
    let requestBody := Json.obj
      [("instances", .arr [.obj [("prompt", .str prompt)]]),
       ("parameters", .obj
         [("aspectRatio", .str aspect_ratio), ("resolution", .str resolution),
          ("durationSeconds", .str (toString duration))])]
    let model := ((params.get "model").bind Json.asStr).getD "veo-3.1-generate-preview"
    let req : HttpReq :=
      ⟨"POST",
       "https://generativelanguage.googleapis.com/v1beta/models/" ++ model ++ ":predictLongRunning",
       some requestBody⟩
    match sendReq rs with
    | none => ⟨.error "request failed", [req]⟩
    | some (resp, rest) =>
      if ¬ is2xx resp.status then
        ⟨.error ("Google Veo API error (" ++ toString resp.status ++ "): " ++ resp.text), [req]⟩
      else
        match (resp.body.get "name").bind Json.asStr with
        | none => ⟨.error "No operation name in Veo response", [req]⟩
        | some operation_name =>
          let out := googlePollVideoGeneration (some c) operation_name rest
          ⟨out.result, req :: out.polls⟩

/-- GoogleProvider::generate: dispatch over the Nano Banana image models
and the Veo video models; anything else is an unsupported-model error
naming the value. -/
def googleGenerate (config : Option GoogleConfig) (request : GenerationRequest)
    (rs : List HttpResp) : ProviderOut :=
  if request.model = "gemini-2.5-flash-image" ∨
     request.model = "gemini-3-pro-image-preview" then
    googleGenerateImage config request.model request.prompt request.parameters rs
  else if request.model = "veo" ∨ request.model = "veo-2" ∨
      request.model = "veo-2.0-generate-exp" ∨ request.model = "veo-3" ∨
      request.model = "veo-3.1" ∨ request.model = "veo-3.1-generate-preview" then
    googleGenerateVideo config request.prompt request.parameters rs
  else
    ⟨.error ("Unsupported Google model: " ++ request.model ++
      ". Use 'gemini-2.5-flash-image' or 'gemini-3-pro-image-preview' for images, or 'veo-3.1-generate-preview' for video generation."), []⟩

/-! ### base64 decoding and file persistence (generation/mod.rs) -/

/-- Value of a standard base64 alphabet character. -/
def b64Val (c : Char) : Option Nat :=
  if 'A' ≤ c ∧ c ≤ 'Z' then some (c.toNat - 65)
  else if 'a' ≤ c ∧ c ≤ 'z' then some (c.toNat - 97 + 26)
  else if '0' ≤ c ∧ c ≤ '9' then some (c.toNat - 48 + 52)
  else if c = '+' then some 62
  else if c = '/' then some 63
  else none

/-- base64::engine::general_purpose::STANDARD decoding: the standard
alphabet in groups of four with canonical trailing padding; any other
shape is a decode error.  (Strictness about non-zero discarded trailing
bits is not reproduced; no claim depends on it.) -/
def b64DecodeGroups : List Char → Option (List Nat)
  | [] => some []
  | a :: b :: c :: d :: rest =>
    (match b64Val a, b64Val b with
     | some va, some vb =>
       if c = '=' then
         if d = '=' ∧ rest = [] then some [va * 4 + vb / 16] else none
       else
         match b64Val c with
         | some vc =>
           if d = '=' then
             if rest = [] then some [va * 4 + vb / 16, (vb % 16) * 16 + vc / 4] else none
           else
             match b64Val d with
             | some vd =>
               (b64DecodeGroups rest).map
                 (fun t => (va * 4 + vb / 16) :: ((vb % 16) * 16 + vc / 4) ::
                           ((vc % 4) * 64 + vd) :: t)
             | none => none
         | none => none
     | _, _ => none)
  | _ => none

def base64Decode (s : String) : Option (List Nat) :=
  b64DecodeGroups s.toList

/-- The file-system collaborators of save_base64_to_file, as an explicit
environment: dirs::home_dir, uuid::Uuid::new_v4, and the success of
std::fs::create_dir_all and tokio::fs::write. -/
structure FsEnv where
  homeDir : Option String
  uuid : String
  createDirOk : Bool
  writeOk : Bool
deriving Repr, Inhabited

/-- The payload preprocessing of save_base64_to_file: keep only what
follows the first comma (stripping a data-URL head when present), then
drop every whitespace character. -/
def stripDataUrlHead (base64_data : String) : List Char :=
  let base64_only :=
    match splitFirstChar ',' base64_data.toList with
    | some (_, post) => post
    | none => base64_data.toList
  base64_only.filter (fun c => ¬ c.isWhitespace)

/-- save_base64_to_file: strip any data-URL head up to the first comma,
drop all whitespace, decode, then write the bytes to a freshly named file
gen_<uuid>.png under <home>/Pictures/Promptcraft; each failing step is an
error. -/
def save_base64_to_file (fs : FsEnv) (base64_data : String) : Except String String :=
  match b64DecodeGroups (stripDataUrlHead base64_data) with
  | none => .error "base64 decode error"
  | some _image_bytes =>
    match fs.homeDir with
    | none => .error "Could not get home directory"
    | some home =>
      let images_dir := home ++ "/Pictures/Promptcraft"
      if ¬ fs.createDirOk then .error "create dir error"
      else
        let file_path := images_dir ++ "/gen_" ++ fs.uuid ++ ".png"
        if ¬ fs.writeOk then .error "write error"
        else .ok file_path

/-! ### Provider registry and Generation Service (generation/mod.rs) -/

structure ComfyUIConfig where
  api_url : String
deriving Repr, Inhabited

structure InvokeAIConfig where
  api_url : String
deriving Repr, Inhabited

structure MidjourneyConfig where
  api_key : String
deriving Repr, Inhabited

/-- The closed set of GenerationProvider implementations, each holding its
optional configuration exactly as the Rust structs do. -/
inductive ProviderInst where
  | anthropic (config : Option AnthropicConfig)
  | openai (config : Option OpenAIConfig)
  | google (config : Option GoogleConfig)
  | grok (config : Option GrokConfig)
  | a1111 (config : Option A1111Config)
  | comfyui (config : Option ComfyUIConfig)
  | invokeai (config : Option InvokeAIConfig)
  | midjourney (config : Option MidjourneyConfig)
deriving Repr, Inhabited

/-- GenerationProvider::name for each implementation. -/
def ProviderInst.name : ProviderInst → String
  | .anthropic _ => "anthropic"
  | .openai _ => "openai"
  | .google _ => "google"
  | .grok _ => "grok"
  | .a1111 _ => "a1111"
  | .comfyui _ => "comfyui"
  | .invokeai _ => "invokeai"
  | .midjourney _ => "midjourney"

/-- The environment of one generate call: the queue of remote responses,
plus the abstracted outcome of the ComfyUI/InvokeAI graph/queue protocol
(their multi-step workflow is not claim-relevant and is represented by the
result it would produce after the modelled configuration check). -/
structure NetEnv where
  responses : List HttpResp
  localResult : Except String GenerationResult
deriving Repr, Inhabited

/-- Dispatch of GenerationProvider::generate over the registry's trait
objects.  ComfyUI and InvokeAI first perform their source-code
configuration check ("... API URL not configured") and then stand for
their abstracted remote protocol; Midjourney always fails as in the
source. -/
def providerGenerate (p : ProviderInst) (request : GenerationRequest)
    (net : NetEnv) : ProviderOut :=
  match p with
  | .anthropic cfg => anthropicGenerate cfg request net.responses
  | .openai cfg => openaiGenerate cfg request net.responses
  | .google cfg => googleGenerate cfg request net.responses
  | .grok cfg => grokGenerate cfg request net.responses
  | .a1111 cfg => a1111Generate cfg request net.responses
  | .comfyui cfg =>
    (match cfg with
     | none => ⟨.error "ComfyUI API URL not configured", []⟩
     | some _ => ⟨net.localResult, []⟩)
  | .invokeai cfg =>
    (match cfg with
     | none => ⟨.error "InvokeAI API URL not configured", []⟩
     | some _ => ⟨net.localResult, []⟩)
  | .midjourney _ => ⟨.error "Midjourney integration coming soon", []⟩

/-- The provider registry: HashMap<String, Box<dyn GenerationProvider>>
modelled as an association list with replace-on-insert semantics. -/
abbrev Registry := List (String × ProviderInst)

/-- HashMap::insert keyed by provider.name(): replaces an existing entry,
otherwise adds one. -/
def registerProvider : Registry → ProviderInst → Registry
  | [], p => [(p.name, p)]
  | (k, v) :: rest, p =>
    if k = p.name then (p.name, p) :: rest else (k, v) :: registerProvider rest p

/-- HashMap::remove. -/
def removeReg (reg : Registry) (name : String) : Registry :=
  reg.filter (fun e => e.1 ≠ name)

/-- HashMap::get / GenerationService::get_provider. -/
def lookupReg (reg : Registry) (name : String) : Option ProviderInst :=
  match reg with
  | [] => none
  | (k, v) :: rest => if k = name then some v else lookupReg rest name

/-- GenerationService::list_providers: the registry keys (the HashMap's
iteration order is arbitrary; membership is the meaningful content). -/
def listProviders (reg : Registry) : List String :=
  reg.map (·.1)

/-- GenerationService::configure_provider: removes the old entry first,
then switches over the closed set of API-key providers; an unknown name
fails after the removal has already happened. -/
def configureProvider (reg : Registry) (provider_name api_key : String) :
    Except String Unit × Registry :=
  let reg1 := removeReg reg provider_name
  if provider_name = "anthropic" then
    (.ok (), registerProvider reg1 (.anthropic (some ⟨api_key⟩)))
  else if provider_name = "openai" then
    (.ok (), registerProvider reg1 (.openai (some ⟨api_key, none⟩)))
  else if provider_name = "google" then
    (.ok (), registerProvider reg1 (.google (some ⟨api_key, none⟩)))
  else if provider_name = "grok" then
    (.ok (), registerProvider reg1 (.grok (some ⟨api_key⟩)))
  else
    (.error ("Unknown provider: " ++ provider_name), reg1)

/-- GenerationService::configure_local_provider: same removal-first shape
over the endpoint-configured local providers. -/
def configureLocalProvider (reg : Registry) (provider_name api_url : String) :
    Except String Unit × Registry :=
  let reg1 := removeReg reg provider_name
  if provider_name = "a1111" then
    (.ok (), registerProvider reg1 (.a1111 (some ⟨api_url⟩)))
  else if provider_name = "comfyui" then
    (.ok (), registerProvider reg1 (.comfyui (some ⟨api_url⟩)))
  else if provider_name = "invokeai" then
    (.ok (), registerProvider reg1 (.invokeai (some ⟨api_url⟩)))
  else
    (.error ("Unknown local provider: " ++ provider_name), reg1)

/-- lib.rs init_generation_service: registers unconfigured Anthropic,
OpenAI, Google and Grok instances — and no others. -/
def initGenerationService : Registry :=
  registerProvider (registerProvider (registerProvider (registerProvider []
    (.anthropic none)) (.openai none)) (.google none)) (.grok none)

/-- The outcome of GenerationService::generate: the result, the sent
requests, and the warnings printed by the non-fatal normalization path. -/
structure ServiceOut where
  result : Except String GenerationResult
  sent : List HttpReq
  warnings : List String
deriving Repr, Inhabited

/-- The output-normalization block of GenerationService::generate: a
non-empty inline base64 payload is written to disk and the result rewritten
to the asset URL and file path with the payload cleared; a save failure
leaves the result untouched and records a warning. -/
def normalizeOutput (fs : FsEnv) (r : GenerationResult) :
    GenerationResult × List String :=
  match r.output_data with
  | some base64_data =>
    if base64_data ≠ "" then
      match save_base64_to_file fs base64_data with
      | .ok file_path =>
        ({ r with
            output_url := some ("asset://localhost/" ++ file_path)
            file_path := some file_path
            output_data := none }, [])
      | .error e => (r, ["Warning: Failed to save base64 to file: " ++ e])
    else (r, [])
  | none => (r, [])

/-- GenerationService::generate: resolve the provider (ProviderNotFound
when absent), invoke it, then apply output normalization to a successful
result. -/
def serviceGenerate (reg : Registry) (provider_name : String)
    (request : GenerationRequest) (net : NetEnv) (fs : FsEnv) : ServiceOut :=
  match lookupReg reg provider_name with
  | none => ⟨.error ("Provider not found: " ++ provider_name), [], []⟩
  | some p =>
    let out := providerGenerate p request net
    match out.result with
    | .error e => ⟨.error e, out.sent, []⟩
    | .ok r =>
      let (r2, warnings) := normalizeOutput fs r
      ⟨.ok r2, out.sent, warnings⟩

/-! ### Job store (src/src-tauri/src/db/operations.rs, db/models.rs)

The jobs table is modelled as a list of rows.  The TEXT columns holding
JSON documents are represented by their parse results: `data` as the
outcome of serde_json::from_str (so a stored unparseable document is an
explicit error value), `result` as the serde_json::Value written by the
processor. -/

/-- One row of the jobs table. -/
structure JobRow where
  id : String
  scene_id : Option String
  status : String
  data : Except String Json
  result : Option Json
  error : Option String
  created_at : String
  started_at : Option String
  completed_at : Option String
deriving Repr, Inhabited

/-- UpdateJobInput. -/
structure UpdateJobInput where
  status : Option String
  result : Option Json
  error : Option String
deriving Repr, Inhabited

/-- JobOps::update applied to one row.  The status branch reproduces the
SQL `SET status = ?, started_at = COALESCE(started_at, ?), completed_at
= ?`: started_at keeps its first value (the bind is NULL unless the new
status is "running"), completed_at is overwritten with now on a terminal
status and NULL otherwise.  The result and error branches each overwrite
their single column. -/
def jobUpdateRow (now : String) (input : UpdateJobInput) (j : JobRow) : JobRow :=
  let j :=
    match input.status with
    | some s =>
      { j with
          status := s
          started_at :=
            match j.started_at with
            | some t => some t
            | none => if s = "running" then some now else none
          completed_at := if s = "completed" ∨ s = "failed" then some now else none }
    | none => j
  let j :=
    match input.result with
    | some r => { j with result := some r }
    | none => j
  match input.error with
  | some e => { j with error := some e }
  | none => j

/-- JobOps::get: the first row with the given id (fetch_optional). -/
def jobOpsGet (db : List JobRow) (id : String) : Option JobRow :=
  db.find? (fun j => j.id = id)

/-- The effect of the UPDATE statement on the table. -/
def updMap (db : List JobRow) (id now : String) (input : UpdateJobInput) :
    List JobRow :=
  db.map (fun j => if j.id = id then jobUpdateRow now input j else j)

/-- JobOps::update over the table: the UPDATE touches every row matching
the id (exactly one under the primary-key invariant), and the trailing get
fails with "Job not found" when the id is absent. -/
def jobOpsUpdate (db : List JobRow) (id : String) (now : String)
    (input : UpdateJobInput) : Except String (List JobRow) :=
  match jobOpsGet (updMap db id now input) id with
  | none => .error "Job not found"
  | some _ => .ok (updMap db id now input)

/-- JobOps::create's row shape: status 'pending', no result, error or
terminal timestamps. -/
def freshPending (j : JobRow) : Prop :=
  j.status = "pending" ∧ j.result = none ∧ j.error = none ∧
  j.started_at = none ∧ j.completed_at = none

/-! ### Job Processor (src/src-tauri/src/generation/processor.rs) -/

/-- serde_json::to_value of a GenerationResult. -/
def resultToJson (r : GenerationResult) : Json :=
  .obj
    [("output_url", match r.output_url with | some u => .str u | none => .null),
     ("output_data", match r.output_data with | some d => .str d | none => .null),
     ("file_path", match r.file_path with | some p => .str p | none => .null),
     ("metadata", r.metadata)]

/-- The pure data-extraction part of JobProcessor::process_job: parse the
job's data document, require provider and prompt, default model and
parameters, then call the Generation Service (abstracted by `gen`, which
stands for GenerationService::generate with this cycle's environments). -/
def jobOutcome (gen : String → GenerationRequest → Except String GenerationResult)
    (job : JobRow) : Except String GenerationResult :=
  match job.data with
  | .error e => .error e
  | .ok job_data =>
    match (job_data.get "provider").bind Json.asStr with
    | none => .error "Missing provider in job data"
    | some provider =>
      match (job_data.get "prompt").bind Json.asStr with
      | none => .error "Missing prompt in job data"
      | some prompt =>
        let model := ((job_data.get "model").bind Json.asStr).getD "default"
        let parameters := (job_data.get "parameters").getD (.obj [])
        gen provider ⟨prompt, model, parameters⟩

/-- JobProcessor::process_job: mark the job running, parse and generate,
then mark it completed with the serialized result.  Any error is returned
to the caller together with the store as updated so far.  (The best-effort
scene-thumbnail update touches the scenes table only and is omitted from
the job-store model.) -/
def processJob (gen : String → GenerationRequest → Except String GenerationResult)
    (now : String) (db : List JobRow) (job : JobRow) :
    Except String Unit × List JobRow :=
  match jobOpsUpdate db job.id now ⟨some "running", none, none⟩ with
  | .error e => (.error e, db)
  | .ok db1 =>
    match jobOutcome gen job with
    | .error e => (.error e, db1)
    | .ok result =>
      match jobOpsUpdate db1 job.id now ⟨some "completed", some (resultToJson result), none⟩ with
      | .error e => (.error e, db1)
      | .ok db2 => (.ok (), db2)

/-- The batch fetch: `SELECT * FROM jobs WHERE status = 'pending' ORDER BY
created_at ASC LIMIT 10`, with rows stored in creation order. -/
def fetchPending (db : List JobRow) : List JobRow :=
  (db.filter (fun j => j.status = "pending")).take 10

/-- The loop body of JobProcessor::process_pending_jobs for one fetched
job: on any processing error the job is marked failed with the error's
description (a failure of that very update is ignored). -/
def processStep (gen : String → GenerationRequest → Except String GenerationResult)
    (now : String) (db : List JobRow) (job : JobRow) : List JobRow :=
  match processJob gen now db job with
  | (.ok _, db1) => db1
  | (.error e, db1) =>
    match jobOpsUpdate db1 job.id now ⟨some "failed", none, some e⟩ with
    | .ok db2 => db2
    | .error _ => db1

/-- JobProcessor::process_pending_jobs: process the fetched batch
sequentially; one job's failure never aborts the rest of the batch.  The
Rust function itself only fails on the fetch, which the pure model cannot
fail, so the updated store is always produced and the loop's next cycle
runs. -/
def processPendingJobs (gen : String → GenerationRequest → Except String GenerationResult)
    (now : String) (db : List JobRow) : List JobRow :=
  (fetchPending db).foldl (processStep gen now) db

/-! ## Claims -/

/-- splitOnChar never returns an empty list, so the source's
unwrap_or("image/png") fallback on the first split segment is dead code. -/
theorem splitOnChar_ne_nil (c : Char) (l : List Char) : splitOnChar c l ≠ [] := by
  cases l with
  | nil => simp [splitOnChar]
  | cons x xs =>
    simp only [splitOnChar]
    split
    · simp
    · cases h : splitOnChar c xs <;> simp

/-- C8 (amended). extract_base64_from_data_url returns Ok exactly when the
input starts with "data:", contains a comma, and its pre-comma metadata
contains "base64".  The payload is everything after the first comma; the
MIME type is the segment of the metadata before the first ';' after
repeatedly stripping a leading "data:" — possibly empty, the "image/png"
fallback being unreachable.  Each violated precondition yields its own
distinct error, and the documented round-trip example holds. -/
theorem c8_extract_data_url_contract :
    (∀ (s : String) (meta payload : List Char),
      startsWithStr s "data:" = true →
      splitFirstChar ',' s.toList = some (meta, payload) →
      containsSub (String.mk meta) "base64" = true →
      extract_base64_from_data_url s =
        .ok (String.mk (((splitOnChar ';' (trimDataHeader meta)).head?).getD
              "image/png".toList),
             String.mk payload)) ∧
    (∀ s : String, startsWithStr s "data:" = false →
      extract_base64_from_data_url s =
        .error "Invalid data URL: must start with 'data:'") ∧
    (∀ s : String, startsWithStr s "data:" = true →
      splitFirstChar ',' s.toList = none →
      extract_base64_from_data_url s =
        .error "Invalid data URL format: missing comma separator") ∧
    (∀ (s : String) (meta payload : List Char),
      startsWithStr s "data:" = true →
      splitFirstChar ',' s.toList = some (meta, payload) →
      containsSub (String.mk meta) "base64" = false →
      extract_base64_from_data_url s =
        .error "Data URL is not base64 encoded") ∧
    ("Invalid data URL: must start with 'data:'" ≠
        "Invalid data URL format: missing comma separator" ∧
     "Invalid data URL: must start with 'data:'" ≠ "Data URL is not base64 encoded" ∧
     "Invalid data URL format: missing comma separator" ≠
        "Data URL is not base64 encoded") ∧
    extract_base64_from_data_url "data:image/png;base64,iVBORw0KGgo" =
      .ok ("image/png", "iVBORw0KGgo") := by
  refine ⟨?_, ?_, ?_, ?_, ⟨by decide, by decide, by decide⟩, rfl⟩
  · intro s meta payload h1 h2 h3
    simp only [extract_base64_from_data_url, h1, not_true, if_neg, ite_not, if_true]
    rw [h2]
    simp [h3]
  · intro s h1
    simp [extract_base64_from_data_url, h1]
  · intro s h1 h2
    simp only [extract_base64_from_data_url, h1, not_true, ite_not, if_true]
    rw [h2]
    simp
  · intro s meta payload h1 h2 h3
    simp only [extract_base64_from_data_url, h1, not_true, ite_not, if_true]
    rw [h2]
    simp [h3]

/-- C8 witness: the first conjunct applied at a concrete JPEG data URL. -/
theorem c8_extract_data_url_contract_witness :
    extract_base64_from_data_url "data:image/jpeg;base64,/9j/4AAQ" =
      .ok ("image/jpeg", "/9j/4AAQ") := by
  have h := c8_extract_data_url_contract.1 "data:image/jpeg;base64,/9j/4AAQ"
    "data:image/jpeg;base64".toList "/9j/4AAQ".toList rfl rfl rfl
  exact h

/-- C8 counterexample: the claimed "image/png" default never applies.  An
empty MIME segment stays empty, a metadata with no ';' yields the whole
trimmed metadata, and a doubled "data:" head is stripped twice — none of
these produce the claimed default. -/
theorem c8_extract_data_url_default_counterexample :
    extract_base64_from_data_url "data:;base64,abc" = .ok ("", "abc") ∧
    extract_base64_from_data_url "data:base64,abc" = .ok ("base64", "abc") ∧
    extract_base64_from_data_url "data:data:image/png;base64,x" =
      .ok ("image/png", "x") ∧
    ("" : String) ≠ "image/png" ∧ ("base64" : String) ≠ "image/png" := by
  exact ⟨rfl, rfl, rfl, by decide, by decide⟩

/-- The model names OpenAIProvider::generate dispatches to a generation
path (supported plus deprecated aliases). -/
def openaiModelDispatched (m : String) : Prop :=
  m ∈ ["gpt-image-1", "gpt-image-1-mini", "sora-2", "sora-2-pro", "sora",
       "dall-e-3", "dall-e-2"]

instance (m : String) : Decidable (openaiModelDispatched m) := by
  unfold openaiModelDispatched; infer_instance

/-- The model names GoogleProvider::generate dispatches to a generation
path. -/
def googleModelDispatched (m : String) : Prop :=
  m ∈ ["gemini-2.5-flash-image", "gemini-3-pro-image-preview", "veo", "veo-2",
       "veo-2.0-generate-exp", "veo-3", "veo-3.1", "veo-3.1-generate-preview"]

instance (m : String) : Decidable (googleModelDispatched m) := by
  unfold googleModelDispatched; infer_instance

/-- The model names GrokProvider::generate dispatches to a generation path
(supported plus legacy aliases). -/
def grokModelDispatched (m : String) : Prop :=
  m ∈ ["grok-2-image", "grok-2-image-1212", "grok-image", "aurora",
       "grok-1", "grok", "flux"]

instance (m : String) : Decidable (grokModelDispatched m) := by
  unfold grokModelDispatched; infer_instance

/-- An unconfigured OpenAI instance fails NotConfigured on every
dispatched model. -/
theorem openai_none_dispatched (req : GenerationRequest) (rs : List HttpResp)
    (h : openaiModelDispatched req.model) :
    openaiGenerate none req rs = ⟨.error "OpenAI API key not configured", []⟩ := by
  simp only [openaiModelDispatched, List.mem_cons, List.mem_singleton,
    List.not_mem_nil, or_false] at h
  unfold openaiGenerate
  rcases h with h | h | h | h | h | h | h <;> simp [h] <;> rfl

/-- An unconfigured Google instance fails NotConfigured on every
dispatched model. -/
theorem google_none_dispatched (req : GenerationRequest) (rs : List HttpResp)
    (h : googleModelDispatched req.model) :
    googleGenerate none req rs = ⟨.error "Google API key not configured", []⟩ := by
  simp only [googleModelDispatched, List.mem_cons, List.mem_singleton,
    List.not_mem_nil, or_false] at h
  unfold googleGenerate
  rcases h with h | h | h | h | h | h | h | h <;> simp [h] <;> rfl

/-- An unconfigured Grok instance fails NotConfigured on every dispatched
model. -/
theorem grok_none_dispatched (req : GenerationRequest) (rs : List HttpResp)
    (h : grokModelDispatched req.model) :
    grokGenerate none req rs = ⟨.error "xAI API key not configured", []⟩ := by
  simp only [grokModelDispatched, List.mem_cons, List.mem_singleton,
    List.not_mem_nil, or_false] at h
  unfold grokGenerate
  rcases h with h | h | h | h | h | h | h <;> simp [h] <;> rfl

/-- C1 (amended).  On an unconfigured instance, generate returns the
provider's "... not configured" error and sends nothing — unconditionally
for a1111 and anthropic, and for every dispatched model on openai, google
and grok; with an undispatched model these three fail earlier with the
unsupported-model error, still sending nothing (the sent-trace is empty
for every model). -/
theorem c1_unconfigured_no_network (req : GenerationRequest) (rs : List HttpResp) :
    a1111Generate none req rs = ⟨.error "A1111 API URL not configured", []⟩ ∧
    anthropicGenerate none req rs = ⟨.error "Anthropic API key not configured", []⟩ ∧
    (openaiGenerate none req rs).sent = [] ∧
    (openaiModelDispatched req.model →
      openaiGenerate none req rs = ⟨.error "OpenAI API key not configured", []⟩) ∧
    (googleGenerate none req rs).sent = [] ∧
    (googleModelDispatched req.model →
      googleGenerate none req rs = ⟨.error "Google API key not configured", []⟩) ∧
    (grokGenerate none req rs).sent = [] ∧
    (grokModelDispatched req.model →
      grokGenerate none req rs = ⟨.error "xAI API key not configured", []⟩) := by
  refine ⟨rfl, rfl, ?_, openai_none_dispatched req rs, ?_,
    google_none_dispatched req rs, ?_, grok_none_dispatched req rs⟩
  · unfold openaiGenerate
    split_ifs <;> rfl
  · unfold googleGenerate
    split_ifs <;> rfl
  · unfold grokGenerate
    split_ifs <;> rfl

/-- C1 witness: the dispatched-model conjuncts at concrete requests. -/
theorem c1_unconfigured_no_network_witness :
    openaiGenerate none ⟨"p", "sora-2", .obj []⟩ [] =
      ⟨.error "OpenAI API key not configured", []⟩ ∧
    googleGenerate none ⟨"p", "veo-3.1", .obj []⟩ [] =
      ⟨.error "Google API key not configured", []⟩ ∧
    grokGenerate none ⟨"p", "aurora", .obj []⟩ [] =
      ⟨.error "xAI API key not configured", []⟩ :=
  ⟨(c1_unconfigured_no_network ⟨"p", "sora-2", .obj []⟩ []).2.2.2.1 (by decide),
   (c1_unconfigured_no_network ⟨"p", "veo-3.1", .obj []⟩ []).2.2.2.2.2.1 (by decide),
   (c1_unconfigured_no_network ⟨"p", "aurora", .obj []⟩ []).2.2.2.2.2.2.2 (by decide)⟩

/-- C1 counterexample: an unconfigured OpenAI instance asked for model
"foo" fails with the unsupported-model error, not with a "... not
configured" error, so the claim's unconditional NotConfigured outcome is
false (no request is sent either way). -/
theorem c1_unconfigured_counterexample :
    openaiGenerate none ⟨"p", "foo", .obj []⟩ [] =
      ⟨.error "Unsupported OpenAI model: foo. Use 'gpt-image-1' for images or 'sora-2' for videos.",
       []⟩ ∧
    containsSub "Unsupported OpenAI model: foo. Use 'gpt-image-1' for images or 'sora-2' for videos."
      "not configured" = false :=
  ⟨rfl, by decide⟩

/-- A configured A1111 instance always issues its txt2img POST: its sent
trace has exactly one request, whatever the model. -/
theorem a1111_always_sends (c : A1111Config) (prompt : String) (params : Json)
    (rs : List HttpResp) :
    (a1111GenerateImage (some c) prompt params rs).sent.length = 1 := by
  unfold a1111GenerateImage
  cases rs with
  | nil => rfl
  | cons r rest =>
    simp only [sendReq]
    split_ifs <;> (try rfl) <;> (repeat' split) <;> rfl

/-- A configured Anthropic instance always issues its messages POST. -/
theorem anthropic_always_sends (c : AnthropicConfig) (prompt model : String)
    (params : Json) (rs : List HttpResp) :
    (anthropicGenerateText (some c) prompt model params rs).sent.length = 1 := by
  unfold anthropicGenerateText
  cases rs with
  | nil => rfl
  | cons r rest =>
    simp only [sendReq]
    split_ifs <;> (try rfl) <;> (repeat' split) <;> rfl

/-- C2 (amended).  Only openai, google and grok validate the request's
model: for any configuration and any model outside their dispatched sets
they return the unsupported-model error naming that model and send
nothing.  a1111 and anthropic never inspect the model — when configured
they send their request regardless of the model value. -/
theorem c2_unsupported_model (cfg₁ : Option OpenAIConfig) (cfg₂ : Option GoogleConfig)
    (cfg₃ : Option GrokConfig) (ca : A1111Config) (cb : AnthropicConfig)
    (req : GenerationRequest) (rs : List HttpResp) :
    (¬ openaiModelDispatched req.model →
      openaiGenerate cfg₁ req rs =
        ⟨.error ("Unsupported OpenAI model: " ++ req.model ++
          ". Use 'gpt-image-1' for images or 'sora-2' for videos."), []⟩) ∧
    (¬ googleModelDispatched req.model →
      googleGenerate cfg₂ req rs =
        ⟨.error ("Unsupported Google model: " ++ req.model ++
          ". Use 'gemini-2.5-flash-image' or 'gemini-3-pro-image-preview' for images, or 'veo-3.1-generate-preview' for video generation."), []⟩) ∧
    (¬ grokModelDispatched req.model →
      grokGenerate cfg₃ req rs =
        ⟨.error ("Unsupported Grok model: " ++ req.model ++
          ". Use 'grok-2-image' for image generation."), []⟩) ∧
    (a1111Generate (some ca) req rs).sent.length = 1 ∧
    (anthropicGenerate (some cb) req rs).sent.length = 1 := by
  refine ⟨?_, ?_, ?_, a1111_always_sends ca req.prompt req.parameters rs,
    anthropic_always_sends cb req.prompt req.model req.parameters rs⟩
  · intro h
    simp only [openaiModelDispatched, List.mem_cons, List.mem_singleton,
      List.not_mem_nil, or_false, not_or] at h
    obtain ⟨h1, h2, h3, h4, h5, h6, h7⟩ := h
    unfold openaiGenerate
    simp [h1, h2, h3, h4, h5, h6, h7]
  · intro h
    simp only [googleModelDispatched, List.mem_cons, List.mem_singleton,
      List.not_mem_nil, or_false, not_or] at h
    obtain ⟨h1, h2, h3, h4, h5, h6, h7, h8⟩ := h
    unfold googleGenerate
    simp [h1, h2, h3, h4, h5, h6, h7, h8]
  · intro h
    simp only [grokModelDispatched, List.mem_cons, List.mem_singleton,
      List.not_mem_nil, or_false, not_or] at h
    obtain ⟨h1, h2, h3, h4, h5, h6, h7⟩ := h
    unfold grokGenerate
    simp [h1, h2, h3, h4, h5, h6, h7]

/-- C2 witness: the openai conjunct at a concrete unknown model, plus the
pass-through conjuncts at a concrete configuration. -/
theorem c2_unsupported_model_witness :
    openaiGenerate none ⟨"p", "gpt-5", .obj []⟩ [] =
      ⟨.error "Unsupported OpenAI model: gpt-5. Use 'gpt-image-1' for images or 'sora-2' for videos.",
       []⟩ ∧
    (a1111Generate (some ⟨"http://h"⟩) ⟨"p", "anything", .obj []⟩ []).sent.length = 1 := by
  have h := c2_unsupported_model none none none ⟨"http://h"⟩ ⟨"k"⟩
    ⟨"p", "gpt-5", .obj []⟩ []
  have h2 := c2_unsupported_model none none none ⟨"http://h"⟩ ⟨"k"⟩
    ⟨"p", "anything", .obj []⟩ []
  exact ⟨h.1 (by decide), h2.2.2.2.1⟩

/-- C2 counterexample: a configured A1111 instance given the model
"nonsense" does not return an unsupported-model error — it sends its POST
(one request attempted) and surfaces the remote failure instead. -/
theorem c2_unsupported_model_counterexample :
    (a1111Generate (some ⟨"http://h"⟩) ⟨"p", "nonsense", .obj []⟩
        [⟨500, "boom", .null⟩]).result = .error "A1111 API error (500): boom" ∧
    (a1111Generate (some ⟨"http://h"⟩) ⟨"p", "nonsense", .obj []⟩
        [⟨500, "boom", .null⟩]).sent.length = 1 ∧
    containsSub "A1111 API error (500): boom" "Unsupported" = false :=
  ⟨rfl, rfl, by decide⟩

/-- Removing a key makes it unresolvable. -/
theorem lookupReg_removeReg (reg : Registry) (name : String) :
    lookupReg (removeReg reg name) name = none := by
  induction reg with
  | nil => rfl
  | cons e rest ih =>
    by_cases h : e.1 = name
    · simpa [removeReg, h] using ih
    · simpa [removeReg, lookupReg, h] using ih

/-- C10.  Both configuration paths remove the registry entry before
checking the name against their closed switch, so the unknown-name error
leaves the registry already mutated: the result is exactly the error plus
the registry with the name removed, and in particular a registered a1111
instance is deleted by configure_provider("a1111", _) even though that
call fails. -/
theorem c10_configure_error_mutates :
    (∀ (reg : Registry) (name key : String),
      name ≠ "anthropic" → name ≠ "openai" → name ≠ "google" → name ≠ "grok" →
      configureProvider reg name key =
        (.error ("Unknown provider: " ++ name), removeReg reg name)) ∧
    (∀ (reg : Registry) (name url : String),
      name ≠ "a1111" → name ≠ "comfyui" → name ≠ "invokeai" →
      configureLocalProvider reg name url =
        (.error ("Unknown local provider: " ++ name), removeReg reg name)) ∧
    (∀ (reg : Registry) (name : String),
      lookupReg (removeReg reg name) name = none) ∧
    (configureProvider [("a1111", .a1111 (some ⟨"http://127.0.0.1:7860"⟩))] "a1111" "key" =
      (.error "Unknown provider: a1111", []) ∧
     lookupReg (configureProvider [("a1111", .a1111 (some ⟨"http://127.0.0.1:7860"⟩))]
        "a1111" "key").2 "a1111" = none) := by
  refine ⟨?_, ?_, lookupReg_removeReg, rfl, rfl⟩
  · intro reg name key h1 h2 h3 h4
    simp [configureProvider, h1, h2, h3, h4]
  · intro reg name url h1 h2 h3
    simp [configureLocalProvider, h1, h2, h3]

/-- C10 witness: the unknown-name conjuncts at concrete inputs. -/
theorem c10_configure_error_mutates_witness :
    configureProvider [("grok", .grok none)] "a1111" "key" =
      (.error "Unknown provider: a1111", [("grok", .grok none)]) ∧
    configureLocalProvider [("a1111", .a1111 none)] "openai" "http://h" =
      (.error "Unknown local provider: openai", [("a1111", .a1111 none)]) :=
  ⟨c10_configure_error_mutates.1 [("grok", .grok none)] "a1111" "key"
      (by decide) (by decide) (by decide) (by decide),
   c10_configure_error_mutates.2.1 [("a1111", .a1111 none)] "openai" "http://h"
      (by decide) (by decide) (by decide)⟩

/-- C9 (amended).  The placeholders registered at startup are exactly the
four remote providers anthropic, openai, google and grok: those names are
listed before any credentials exist and generate on them fails with the
"... not configured" error (for a dispatched model where the provider
validates models).  The local providers a1111, comfyui and invokeai are
not registered at startup, so generate on their names fails with
"Provider not found: ..." until they are configured. -/
theorem c9_startup_registry :
    (∀ n, n ∈ listProviders initGenerationService ↔
      n ∈ ["grok", "google", "openai", "anthropic"]) ∧
    (∀ (req : GenerationRequest) (net : NetEnv) (fs : FsEnv),
      serviceGenerate initGenerationService "anthropic" req net fs =
        ⟨.error "Anthropic API key not configured", [], []⟩ ∧
      (openaiModelDispatched req.model →
        serviceGenerate initGenerationService "openai" req net fs =
          ⟨.error "OpenAI API key not configured", [], []⟩) ∧
      (googleModelDispatched req.model →
        serviceGenerate initGenerationService "google" req net fs =
          ⟨.error "Google API key not configured", [], []⟩) ∧
      (grokModelDispatched req.model →
        serviceGenerate initGenerationService "grok" req net fs =
          ⟨.error "xAI API key not configured", [], []⟩) ∧
      serviceGenerate initGenerationService "a1111" req net fs =
        ⟨.error "Provider not found: a1111", [], []⟩ ∧
      serviceGenerate initGenerationService "comfyui" req net fs =
        ⟨.error "Provider not found: comfyui", [], []⟩ ∧
      serviceGenerate initGenerationService "invokeai" req net fs =
        ⟨.error "Provider not found: invokeai", [], []⟩) := by
  constructor
  · intro n
    simp [initGenerationService, listProviders, registerProvider, ProviderInst.name]
    tauto
  · intro req net fs
    refine ⟨rfl, ?_, ?_, ?_, rfl, rfl, rfl⟩
    · intro h
      have h1 := openai_none_dispatched req net.responses h
      simp [serviceGenerate, initGenerationService, registerProvider, ProviderInst.name,
        lookupReg, providerGenerate, h1]
    · intro h
      have h1 := google_none_dispatched req net.responses h
      simp [serviceGenerate, initGenerationService, registerProvider, ProviderInst.name,
        lookupReg, providerGenerate, h1]
    · intro h
      have h1 := grok_none_dispatched req net.responses h
      simp [serviceGenerate, initGenerationService, registerProvider, ProviderInst.name,
        lookupReg, providerGenerate, h1]

/-- C9 witness: the openai conjunct at a concrete dispatched model and
concrete environments. -/
theorem c9_startup_registry_witness :
    serviceGenerate initGenerationService "openai" ⟨"p", "gpt-image-1", .obj []⟩
        ⟨[], .error "x"⟩ ⟨none, "u", true, true⟩ =
      ⟨.error "OpenAI API key not configured", [], []⟩ :=
  (c9_startup_registry.2 ⟨"p", "gpt-image-1", .obj []⟩ ⟨[], .error "x"⟩
    ⟨none, "u", true, true⟩).2.1 (by decide)

/-- C9 counterexample: "a1111" has no placeholder at startup — it is not
listed, and generate("a1111") fails ProviderNotFound, not NotConfigured. -/
theorem c9_startup_registry_counterexample :
    ("a1111" ∈ listProviders initGenerationService → False) ∧
    serviceGenerate initGenerationService "a1111" ⟨"p", "default", .obj []⟩
        ⟨[], .error "x"⟩ ⟨none, "u", true, true⟩ =
      ⟨.error "Provider not found: a1111", [], []⟩ ∧
    containsSub "Provider not found: a1111" "not configured" = false :=
  ⟨by decide, rfl, by decide⟩

/-! ### Poller lemmas -/

/-- A poll response that keeps the OpenAI loop going: 2xx with a status
string that is neither terminal-success nor terminal-failure. -/
def openaiNonTerminal (r : HttpResp) : Prop :=
  is2xx r.status = true ∧
  openaiDoneStatus (openaiPollStatus r.body) = false ∧
  openaiFailStatus (openaiPollStatus r.body) = false

/-- A poll response that keeps the Google loop going: 2xx and not done. -/
def googleNonTerminal (r : HttpResp) : Prop :=
  is2xx r.status = true ∧ googleDone r.body = false

instance (r : HttpResp) : Decidable (openaiNonTerminal r) := by
  unfold openaiNonTerminal; infer_instance

instance (r : HttpResp) : Decidable (googleNonTerminal r) := by
  unfold googleNonTerminal; infer_instance

/-- With a positive attempt budget the first sleep is the current delay. -/
theorem openaiPollLoop_sleeps_head (opid : String) (fuel delay : Nat)
    (rs : List HttpResp) (h : 0 < fuel) :
    (openaiPollLoop opid fuel delay rs).sleeps.head? = some delay := by
  cases fuel with
  | zero => omega
  | succ f =>
    unfold openaiPollLoop
    cases rs with
    | nil => rfl
    | cons r rest =>
      simp only [sendReq]
      split_ifs <;> rfl

/-- With a positive attempt budget the first Google sleep is the current
delay. -/
theorem googlePollLoop_sleeps_head (opname : String) (fuel delay : Nat)
    (rs : List HttpResp) (h : 0 < fuel) :
    (googlePollLoop opname fuel delay rs).sleeps.head? = some delay := by
  cases fuel with
  | zero => omega
  | succ f =>
    unfold googlePollLoop
    cases rs with
    | nil => rfl
    | cons r rest =>
      simp only [sendReq]
      split_ifs <;> first
        | rfl
        | (cases h3 : r.body.get "error" <;> rfl)

/-- Exhausting the attempt budget on non-terminal responses: timeout after
exactly `fuel` sleeps. -/
theorem openaiPollLoop_timeout (opid : String) (fuel delay : Nat)
    (rs : List HttpResp) (hnt : ∀ r ∈ rs, openaiNonTerminal r)
    (hlen : fuel ≤ rs.length) :
    (openaiPollLoop opid fuel delay rs).result =
      .error "Video generation timed out after 60 attempts" ∧
    (openaiPollLoop opid fuel delay rs).sleeps.length = fuel := by
  induction fuel generalizing delay rs with
  | zero => exact ⟨rfl, rfl⟩
  | succ f ih =>
    cases rs with
    | nil => simp at hlen
    | cons r rest =>
      obtain ⟨h2xx, hdone, hfail⟩ := hnt r (by simp)
      have hrest : ∀ x ∈ rest, openaiNonTerminal x := fun x hx => hnt x (by simp [hx])
      have hlen' : f ≤ rest.length := by simpa using hlen
      have := ih (if openaiProgressStatus (openaiPollStatus r.body) then
        min (delay * 2) 60000 else delay) rest hrest hlen'
      unfold openaiPollLoop
      simp only [sendReq, h2xx, hdone, hfail]
      simp only [Bool.not_true, Bool.false_eq_true, if_false]
      refine ⟨this.1, ?_⟩
      simp [this.2]

/-- Exhausting the Google attempt budget on non-done responses. -/
theorem googlePollLoop_timeout (opname : String) (fuel delay : Nat)
    (rs : List HttpResp) (hnt : ∀ r ∈ rs, googleNonTerminal r)
    (hlen : fuel ≤ rs.length) :
    (googlePollLoop opname fuel delay rs).result =
      .error "Video generation timed out after 60 attempts" ∧
    (googlePollLoop opname fuel delay rs).sleeps.length = fuel := by
  induction fuel generalizing delay rs with
  | zero => exact ⟨rfl, rfl⟩
  | succ f ih =>
    cases rs with
    | nil => simp at hlen
    | cons r rest =>
      obtain ⟨h2xx, hdone⟩ := hnt r (by simp)
      have hrest : ∀ x ∈ rest, googleNonTerminal x := fun x hx => hnt x (by simp [hx])
      have hlen' : f ≤ rest.length := by simpa using hlen
      have := ih (min (delay + 5000) 60000) rest hrest hlen'
      unfold googlePollLoop
      simp only [sendReq, h2xx, hdone]
      simp only [Bool.not_true, Bool.false_eq_true, if_false]
      refine ⟨this.1, ?_⟩
      simp [this.2]

/-- Every OpenAI sleep stays within [initial delay, 60000] when the
initial delay does. -/
theorem openaiPollLoop_sleeps_bounds (opid : String) (fuel delay : Nat)
    (rs : List HttpResp) (hlo : 5000 ≤ delay) (hhi : delay ≤ 60000) :
    ∀ d ∈ (openaiPollLoop opid fuel delay rs).sleeps, 5000 ≤ d ∧ d ≤ 60000 := by
  induction fuel generalizing delay rs with
  | zero => simp [openaiPollLoop]
  | succ f ih =>
    unfold openaiPollLoop
    cases rs with
    | nil =>
      intro d hd
      simp [sendReq] at hd
      omega
    | cons r rest =>
      simp only [sendReq]
      intro d hd
      split_ifs at hd
      all_goals first
        | (simp at hd; omega)
        | (simp at hd
           rcases hd with rfl | hd
           · omega
           · first
             | exact ih (min (delay * 2) 60000) rest (by omega) (by omega) d hd
             | exact ih delay rest hlo hhi d hd)

/-- Every Google sleep stays within [initial delay, 60000] when the
initial delay does. -/
theorem googlePollLoop_sleeps_bounds (opname : String) (fuel delay : Nat)
    (rs : List HttpResp) (hlo : 10000 ≤ delay) (hhi : delay ≤ 60000) :
    ∀ d ∈ (googlePollLoop opname fuel delay rs).sleeps, 10000 ≤ d ∧ d ≤ 60000 := by
  induction fuel generalizing delay rs with
  | zero => simp [googlePollLoop]
  | succ f ih =>
    unfold googlePollLoop
    cases rs with
    | nil =>
      intro d hd
      simp [sendReq] at hd
      omega
    | cons r rest =>
      simp only [sendReq]
      intro d hd
      split_ifs at hd
      all_goals first
        | (simp at hd; omega)
        | (rcases h3 : r.body.get "error" with _ | err <;> rw [h3] at hd <;>
            simp at hd <;> omega)
        | (simp at hd
           rcases hd with rfl | hd
           · omega
           · exact ih (min (delay + 5000) 60000) rest (by omega) (by omega) d hd)

/-- Unfolding one non-terminal OpenAI poll step. -/
theorem openaiPollLoop_step (opid : String) (f delay : Nat) (r : HttpResp)
    (rest : List HttpResp) (h2xx : is2xx r.status = true)
    (hdone : openaiDoneStatus (openaiPollStatus r.body) = false)
    (hfail : openaiFailStatus (openaiPollStatus r.body) = false) :
    openaiPollLoop opid (f + 1) delay (r :: rest) =
      ⟨(openaiPollLoop opid f (if openaiProgressStatus (openaiPollStatus r.body) then
          min (delay * 2) 60000 else delay) rest).result,
       delay :: (openaiPollLoop opid f (if openaiProgressStatus (openaiPollStatus r.body) then
          min (delay * 2) 60000 else delay) rest).sleeps,
       ⟨"GET", "https://api.openai.com/v1/videos/" ++ opid, none⟩ ::
         (openaiPollLoop opid f (if openaiProgressStatus (openaiPollStatus r.body) then
          min (delay * 2) 60000 else delay) rest).polls⟩ := by
  conv_lhs => unfold openaiPollLoop
  simp [sendReq, h2xx, hdone, hfail]

/-- Unfolding one non-done Google poll step. -/
theorem googlePollLoop_step (opname : String) (f delay : Nat) (r : HttpResp)
    (rest : List HttpResp) (h2xx : is2xx r.status = true)
    (hdone : googleDone r.body = false) :
    googlePollLoop opname (f + 1) delay (r :: rest) =
      ⟨(googlePollLoop opname f (min (delay + 5000) 60000) rest).result,
       delay :: (googlePollLoop opname f (min (delay + 5000) 60000) rest).sleeps,
       ⟨"GET", "https://generativelanguage.googleapis.com/v1beta/models/" ++ opname, none⟩ ::
         (googlePollLoop opname f (min (delay + 5000) 60000) rest).polls⟩ := by
  conv_lhs => unfold googlePollLoop
  simp [sendReq, h2xx, hdone]

/-- When every response reports a recognized in-progress status, each
OpenAI sleep is the previous one doubled and capped at 60000 ms. -/
theorem openaiPollLoop_chain_progress (opid : String) (fuel delay : Nat)
    (rs : List HttpResp)
    (h : ∀ r ∈ rs, openaiNonTerminal r ∧
      openaiProgressStatus (openaiPollStatus r.body) = true) :
    List.Chain' (fun a b => b = min (a * 2) 60000)
      (openaiPollLoop opid fuel delay rs).sleeps := by
  induction fuel generalizing delay rs with
  | zero => simp [openaiPollLoop]
  | succ f ih =>
    cases rs with
    | nil => simp [openaiPollLoop, sendReq]
    | cons r rest =>
      obtain ⟨⟨h2xx, hdone, hfail⟩, hprog⟩ := h r (by simp)
      have hrest : ∀ x ∈ rest, openaiNonTerminal x ∧
          openaiProgressStatus (openaiPollStatus x.body) = true :=
        fun x hx => h x (by simp [hx])
      rw [openaiPollLoop_step opid f delay r rest h2xx hdone hfail]
      simp only [hprog, if_true]
      rw [List.chain'_cons']
      refine ⟨?_, ih (min (delay * 2) 60000) rest hrest⟩
      intro b hb
      cases f with
      | zero => simp [openaiPollLoop] at hb
      | succ f' =>
        rw [openaiPollLoop_sleeps_head opid (f' + 1) (min (delay * 2) 60000) rest
          (Nat.succ_pos f')] at hb
        simp at hb
        omega

/-- When every response reports an unrecognized (but non-terminal) status,
the OpenAI delay never changes. -/
theorem openaiPollLoop_chain_unknown (opid : String) (fuel delay : Nat)
    (rs : List HttpResp)
    (h : ∀ r ∈ rs, openaiNonTerminal r ∧
      openaiProgressStatus (openaiPollStatus r.body) = false) :
    List.Chain' (fun a b => b = a) (openaiPollLoop opid fuel delay rs).sleeps := by
  induction fuel generalizing delay rs with
  | zero => simp [openaiPollLoop]
  | succ f ih =>
    cases rs with
    | nil => simp [openaiPollLoop, sendReq]
    | cons r rest =>
      obtain ⟨⟨h2xx, hdone, hfail⟩, hprog⟩ := h r (by simp)
      have hrest : ∀ x ∈ rest, openaiNonTerminal x ∧
          openaiProgressStatus (openaiPollStatus x.body) = false :=
        fun x hx => h x (by simp [hx])
      rw [openaiPollLoop_step opid f delay r rest h2xx hdone hfail]
      simp only [hprog, Bool.false_eq_true, if_false]
      rw [List.chain'_cons']
      refine ⟨?_, ih delay rest hrest⟩
      intro b hb
      cases f with
      | zero => simp [openaiPollLoop] at hb
      | succ f' =>
        rw [openaiPollLoop_sleeps_head opid (f' + 1) delay rest (Nat.succ_pos f')] at hb
        simp at hb
        omega

/-- When every Google response is non-done, each sleep is the previous one
plus 5000 ms, capped at 60000 ms. -/
theorem googlePollLoop_chain (opname : String) (fuel delay : Nat)
    (rs : List HttpResp) (h : ∀ r ∈ rs, googleNonTerminal r) :
    List.Chain' (fun a b => b = min (a + 5000) 60000)
      (googlePollLoop opname fuel delay rs).sleeps := by
  induction fuel generalizing delay rs with
  | zero => simp [googlePollLoop]
  | succ f ih =>
    cases rs with
    | nil => simp [googlePollLoop, sendReq]
    | cons r rest =>
      obtain ⟨h2xx, hdone⟩ := h r (by simp)
      have hrest : ∀ x ∈ rest, googleNonTerminal x := fun x hx => h x (by simp [hx])
      rw [googlePollLoop_step opname f delay r rest h2xx hdone]
      rw [List.chain'_cons']
      refine ⟨?_, ih (min (delay + 5000) 60000) rest hrest⟩
      intro b hb
      cases f with
      | zero => simp [googlePollLoop] at hb
      | succ f' =>
        rw [googlePollLoop_sleeps_head opname (f' + 1) (min (delay + 5000) 60000) rest
          (Nat.succ_pos f')] at hb
        simp at hb
        omega

/-- Non-done polls followed by a done response carrying an error object:
the Google loop fails with the embedded message after pre.length + 1
sleeps. -/
theorem googlePollLoop_error_after (opname : String) (fuel delay : Nat)
    (pre : List HttpResp) (hpre : ∀ r ∈ pre, googleNonTerminal r)
    (hfuel : pre.length < fuel) (doneResp : HttpResp)
    (h2xx : is2xx doneResp.status = true)
    (hdone : googleDone doneResp.body = true) (errObj : Json) (msg : String)
    (herr : doneResp.body.get "error" = some errObj)
    (hmsg : (errObj.get "message").bind Json.asStr = some msg)
    (rest : List HttpResp) :
    (googlePollLoop opname fuel delay (pre ++ doneResp :: rest)).result =
      .error ("Veo generation failed: " ++ msg) ∧
    (googlePollLoop opname fuel delay (pre ++ doneResp :: rest)).sleeps.length =
      pre.length + 1 := by
  induction pre generalizing fuel delay with
  | nil =>
    cases fuel with
    | zero => omega
    | succ f =>
      unfold googlePollLoop
      simp only [List.nil_append, sendReq, h2xx, hdone, Bool.not_true,
        Bool.false_eq_true, if_false, if_true, herr]
      simp [hmsg]
  | cons r pre' ih =>
    cases fuel with
    | zero => simp at hfuel
    | succ f =>
      obtain ⟨r2xx, rdone⟩ := hpre r (by simp)
      have hpre' : ∀ x ∈ pre', googleNonTerminal x := fun x hx => hpre x (by simp [hx])
      have hfuel' : pre'.length < f := by simpa using hfuel
      have := ih f (min (delay + 5000) 60000) hpre' hfuel'
      rw [List.cons_append, googlePollLoop_step opname f delay r _ r2xx rdone]
      refine ⟨this.1, ?_⟩
      simp [this.2]

/-- Non-terminal polls followed by a response with a failure status and an
error string: the OpenAI loop fails with that message after
pre.length + 1 sleeps. -/
theorem openaiPollLoop_error_after (opid : String) (fuel delay : Nat)
    (pre : List HttpResp) (hpre : ∀ r ∈ pre, openaiNonTerminal r)
    (hfuel : pre.length < fuel) (failResp : HttpResp)
    (h2xx : is2xx failResp.status = true)
    (hnotdone : openaiDoneStatus (openaiPollStatus failResp.body) = false)
    (hfail : openaiFailStatus (openaiPollStatus failResp.body) = true)
    (msg : String) (herr : (failResp.body.get "error").bind Json.asStr = some msg)
    (rest : List HttpResp) :
    (openaiPollLoop opid fuel delay (pre ++ failResp :: rest)).result =
      .error ("Sora generation failed: " ++ msg) ∧
    (openaiPollLoop opid fuel delay (pre ++ failResp :: rest)).sleeps.length =
      pre.length + 1 := by
  induction pre generalizing fuel delay with
  | nil =>
    cases fuel with
    | zero => omega
    | succ f =>
      unfold openaiPollLoop
      simp only [List.nil_append, sendReq, h2xx, hnotdone, hfail, Bool.not_true,
        Bool.false_eq_true, if_false, if_true]
      simp [herr]
  | cons r pre' ih =>
    cases fuel with
    | zero => simp at hfuel
    | succ f =>
      obtain ⟨r2xx, rdone, rfail⟩ := hpre r (by simp)
      have hpre' : ∀ x ∈ pre', openaiNonTerminal x := fun x hx => hpre x (by simp [hx])
      have hfuel' : pre'.length < f := by simpa using hfuel
      have := ih f (if openaiProgressStatus (openaiPollStatus r.body) then
        min (delay * 2) 60000 else delay) hpre' hfuel'
      rw [List.cons_append, openaiPollLoop_step opid f delay r _ r2xx rdone rfail]
      refine ⟨this.1, ?_⟩
      simp [this.2]

/-- C6 (amended).  Both pollers perform at most 60 poll attempts and then
time out: on an all-non-terminal response sequence of length ≥ 60 they
return the timeout error after exactly 60 sleeps.  The first sleep is the
provider's initial delay (5000 ms OpenAI, 10000 ms Google) and every
sleep stays within [initial, 60000 ms].  Google's delay grows by 5000 ms
(capped) after every non-terminal poll; OpenAI's doubles (capped) only
after polls reporting a recognized in-progress status ("processing",
"pending", "running") and stays unchanged after polls with an
unrecognized non-terminal status. -/
theorem c6_poller_backoff_timeout :
    (∀ (c : OpenAIConfig) (opid : String) (rs : List HttpResp),
      (∀ r ∈ rs, openaiNonTerminal r) → 60 ≤ rs.length →
      (openaiPollVideoGeneration (some c) opid rs).result =
        .error "Video generation timed out after 60 attempts" ∧
      (openaiPollVideoGeneration (some c) opid rs).sleeps.length = 60) ∧
    (∀ (c : OpenAIConfig) (opid : String) (rs : List HttpResp),
      (openaiPollVideoGeneration (some c) opid rs).sleeps.head? = some 5000 ∧
      ∀ d ∈ (openaiPollVideoGeneration (some c) opid rs).sleeps,
        5000 ≤ d ∧ d ≤ 60000) ∧
    (∀ (c : OpenAIConfig) (opid : String) (rs : List HttpResp),
      (∀ r ∈ rs, openaiNonTerminal r ∧
        openaiProgressStatus (openaiPollStatus r.body) = true) →
      List.Chain' (fun a b => b = min (a * 2) 60000)
        (openaiPollVideoGeneration (some c) opid rs).sleeps) ∧
    (∀ (c : OpenAIConfig) (opid : String) (rs : List HttpResp),
      (∀ r ∈ rs, openaiNonTerminal r ∧
        openaiProgressStatus (openaiPollStatus r.body) = false) →
      List.Chain' (fun a b => b = a)
        (openaiPollVideoGeneration (some c) opid rs).sleeps) ∧
    (∀ (c : GoogleConfig) (opname : String) (rs : List HttpResp),
      (∀ r ∈ rs, googleNonTerminal r) → 60 ≤ rs.length →
      (googlePollVideoGeneration (some c) opname rs).result =
        .error "Video generation timed out after 60 attempts" ∧
      (googlePollVideoGeneration (some c) opname rs).sleeps.length = 60) ∧
    (∀ (c : GoogleConfig) (opname : String) (rs : List HttpResp),
      (googlePollVideoGeneration (some c) opname rs).sleeps.head? = some 10000 ∧
      ∀ d ∈ (googlePollVideoGeneration (some c) opname rs).sleeps,
        10000 ≤ d ∧ d ≤ 60000) ∧
    (∀ (c : GoogleConfig) (opname : String) (rs : List HttpResp),
      (∀ r ∈ rs, googleNonTerminal r) →
      List.Chain' (fun a b => b = min (a + 5000) 60000)
        (googlePollVideoGeneration (some c) opname rs).sleeps) := by
  refine ⟨?_, ?_, ?_, ?_, ?_, ?_, ?_⟩
  · intro c opid rs hnt hlen
    exact openaiPollLoop_timeout opid 60 5000 rs hnt (by omega)
  · intro c opid rs
    exact ⟨openaiPollLoop_sleeps_head opid 60 5000 rs (by omega),
      openaiPollLoop_sleeps_bounds opid 60 5000 rs (by omega) (by omega)⟩
  · intro c opid rs h
    exact openaiPollLoop_chain_progress opid 60 5000 rs h
  · intro c opid rs h
    exact openaiPollLoop_chain_unknown opid 60 5000 rs h
  · intro c opname rs hnt hlen
    exact googlePollLoop_timeout opname 60 10000 rs hnt (by omega)
  · intro c opname rs
    exact ⟨googlePollLoop_sleeps_head opname 60 10000 rs (by omega),
      googlePollLoop_sleeps_bounds opname 60 10000 rs (by omega) (by omega)⟩
  · intro c opname rs h
    exact googlePollLoop_chain opname 60 10000 rs h

/-- C6 witness: 60 not-done Google responses time out after 60 sleeps, and
a two-poll all-"processing" OpenAI sequence doubles the delay. -/
theorem c6_poller_backoff_timeout_witness :
    (googlePollVideoGeneration (some ⟨"k", none⟩) "ops/1"
        (List.replicate 60 ⟨200, "", .obj [("done", .bool false)]⟩)).result =
      .error "Video generation timed out after 60 attempts" ∧
    (googlePollVideoGeneration (some ⟨"k", none⟩) "ops/1"
        (List.replicate 60 ⟨200, "", .obj [("done", .bool false)]⟩)).sleeps.length = 60 ∧
    List.Chain' (fun a b => b = min (a * 2) 60000)
      (openaiPollVideoGeneration (some ⟨"k", none⟩) "vid_1"
        (List.replicate 2 ⟨200, "", .obj [("status", .str "processing")]⟩)).sleeps := by
  have h1 := c6_poller_backoff_timeout.2.2.2.2.1 ⟨"k", none⟩ "ops/1"
    (List.replicate 60 ⟨200, "", .obj [("done", .bool false)]⟩)
    (by decide) (by decide)
  have h2 := c6_poller_backoff_timeout.2.2.1 ⟨"k", none⟩ "vid_1"
    (List.replicate 2 ⟨200, "", .obj [("status", .str "processing")]⟩)
    (by decide)
  exact ⟨h1.1, h1.2, h2⟩

/-- C6 counterexample: two polls reporting the unrecognized status
"queued" (non-terminal, so polling continues) leave the OpenAI delay at
5000 ms — the sleeps are [5000, 5000, 5000], not the doubling the claim
requires of every non-terminal poll. -/
theorem c6_poller_backoff_counterexample :
    (openaiPollVideoGeneration (some ⟨"k", none⟩) "vid_1"
        [⟨200, "", .obj [("status", .str "queued")]⟩,
         ⟨200, "", .obj [("status", .str "queued")]⟩]).sleeps = [5000, 5000, 5000] ∧
    ¬ List.Chain' (fun a b => b = min (a * 2) 60000) [5000, 5000, 5000] := by
  refine ⟨rfl, fun h => ?_⟩
  rw [List.chain'_cons] at h
  obtain ⟨h1, -⟩ := h
  omega

/-- C7.  For the done-flag (Google/Veo) polling protocol: any number of
non-done polls followed by a done response carrying an embedded error
object makes the poller fail with that object's message — one sleep per
poll and no successful result — and a response without the done flag is
treated as not-done (polling continues).  The OpenAI poller's analogue of
"done with an embedded error" is a terminal failure status with an error
string, which likewise surfaces the embedded message. -/
theorem c7_poller_embedded_error :
    (∀ (c : GoogleConfig) (opname : String) (pre : List HttpResp)
      (doneResp : HttpResp) (errObj : Json) (msg : String) (rest : List HttpResp),
      (∀ r ∈ pre, googleNonTerminal r) → pre.length < 60 →
      is2xx doneResp.status = true → googleDone doneResp.body = true →
      doneResp.body.get "error" = some errObj →
      (errObj.get "message").bind Json.asStr = some msg →
      (googlePollVideoGeneration (some c) opname (pre ++ doneResp :: rest)).result =
        .error ("Veo generation failed: " ++ msg) ∧
      (googlePollVideoGeneration (some c) opname
          (pre ++ doneResp :: rest)).sleeps.length = pre.length + 1) ∧
    (∀ body : Json, body.get "done" = none → googleDone body = false) ∧
    (∀ (c : OpenAIConfig) (opid : String) (pre : List HttpResp)
      (failResp : HttpResp) (msg : String) (rest : List HttpResp),
      (∀ r ∈ pre, openaiNonTerminal r) → pre.length < 60 →
      is2xx failResp.status = true →
      openaiDoneStatus (openaiPollStatus failResp.body) = false →
      openaiFailStatus (openaiPollStatus failResp.body) = true →
      (failResp.body.get "error").bind Json.asStr = some msg →
      (openaiPollVideoGeneration (some c) opid (pre ++ failResp :: rest)).result =
        .error ("Sora generation failed: " ++ msg) ∧
      (openaiPollVideoGeneration (some c) opid
          (pre ++ failResp :: rest)).sleeps.length = pre.length + 1) := by
  refine ⟨?_, ?_, ?_⟩
  · intro c opname pre doneResp errObj msg rest hpre hlen h2xx hdone herr hmsg
    exact googlePollLoop_error_after opname 60 10000 pre hpre (by omega)
      doneResp h2xx hdone errObj msg herr hmsg rest
  · intro body h
    simp [googleDone, h]
  · intro c opid pre failResp msg rest hpre hlen h2xx hnotdone hfail herr
    exact openaiPollLoop_error_after opid 60 5000 pre hpre (by omega)
      failResp h2xx hnotdone hfail msg herr rest

/-- C7 witness: five done=false polls then done=true with an embedded
error object {"message": "boom"} — the spec's scenario — fail with "Veo
generation failed: boom" after six sleeps. -/
theorem c7_poller_embedded_error_witness :
    (googlePollVideoGeneration (some ⟨"k", none⟩) "ops/1"
        (List.replicate 5 ⟨200, "", .obj [("done", .bool false)]⟩ ++
          [⟨200, "",
            .obj [("done", .bool true),
                  ("error", .obj [("message", .str "boom")])]⟩])).result =
      .error "Veo generation failed: boom" ∧
    (googlePollVideoGeneration (some ⟨"k", none⟩) "ops/1"
        (List.replicate 5 ⟨200, "", .obj [("done", .bool false)]⟩ ++
          [⟨200, "",
            .obj [("done", .bool true),
                  ("error", .obj [("message", .str "boom")])]⟩])).sleeps.length = 6 := by
  have h := c7_poller_embedded_error.1 ⟨"k", none⟩ "ops/1"
    (List.replicate 5 ⟨200, "", .obj [("done", .bool false)]⟩)
    ⟨200, "", .obj [("done", .bool true), ("error", .obj [("message", .str "boom")])]⟩
    (.obj [("message", .str "boom")]) "boom" []
    (by decide) (by decide) (by decide) (by decide) rfl rfl
  exact ⟨h.1, h.2⟩

/-- C5.  Output normalization through GenerationService::generate: the
payload is preprocessed by stripping any data-URL head up to the first
comma and all whitespace; with a decodable payload and working file
system the file gets the fresh unique name under the user's media
directory; a successful save rewrites the result to the asset URL, file
path and cleared payload; a failed save leaves the result untouched with
only a warning recorded; and generate applies exactly this normalization
to every successful provider result. -/
theorem c5_output_normalization :
    (∀ (fs : FsEnv) (d home : String),
      fs.homeDir = some home → fs.createDirOk = true → fs.writeOk = true →
      (b64DecodeGroups (stripDataUrlHead d)).isSome = true →
      save_base64_to_file fs d =
        .ok (home ++ "/Pictures/Promptcraft" ++ "/gen_" ++ fs.uuid ++ ".png")) ∧
    (∀ (fs : FsEnv) (d : String),
      b64DecodeGroups (stripDataUrlHead d) = none →
      save_base64_to_file fs d = .error "base64 decode error") ∧
    (∀ (fs : FsEnv) (r : GenerationResult) (d path : String),
      r.output_data = some d → d ≠ "" →
      save_base64_to_file fs d = .ok path →
      normalizeOutput fs r =
        ({ r with
            output_url := some ("asset://localhost/" ++ path)
            file_path := some path
            output_data := none }, [])) ∧
    (∀ (fs : FsEnv) (r : GenerationResult) (d e : String),
      r.output_data = some d → d ≠ "" →
      save_base64_to_file fs d = .error e →
      normalizeOutput fs r =
        (r, ["Warning: Failed to save base64 to file: " ++ e])) ∧
    (∀ (reg : Registry) (name : String) (p : ProviderInst)
      (req : GenerationRequest) (net : NetEnv) (fs : FsEnv) (r : GenerationResult),
      lookupReg reg name = some p →
      (providerGenerate p req net).result = .ok r →
      serviceGenerate reg name req net fs =
        ⟨.ok (normalizeOutput fs r).1, (providerGenerate p req net).sent,
         (normalizeOutput fs r).2⟩) := by
  refine ⟨?_, ?_, ?_, ?_, ?_⟩
  · intro fs d home h1 h2 h3 h4
    rw [Option.isSome_iff_exists] at h4
    obtain ⟨bytes, hb⟩ := h4
    simp [save_base64_to_file, hb, h1, h2, h3]
  · intro fs d h
    simp [save_base64_to_file, h]
  · intro fs r d path h1 h2 h3
    simp [normalizeOutput, h1, h2, h3]
  · intro fs r d e h1 h2 h3
    simp [normalizeOutput, h1, h2, h3]
  · intro reg name p req net fs r h1 h2
    simp only [serviceGenerate, h1, h2]

/-- C5 witness: the service conjunct composed with the success and failure
conjuncts at concrete inputs — a configured comfyui entry whose abstracted
result carries payload "QUJD" is rewritten to the freshly written file,
and an undecodable payload "!!" is left in place with a warning. -/
theorem c5_output_normalization_witness :
    serviceGenerate [("comfyui", .comfyui (some ⟨"http://h"⟩))] "comfyui"
        ⟨"p", "default", .obj []⟩
        ⟨[], .ok ⟨none, some "QUJD", none, .null⟩⟩
        ⟨some "/home/u", "u1", true, true⟩ =
      ⟨.ok ⟨some "asset://localhost//home/u/Pictures/Promptcraft/gen_u1.png",
            none, some "/home/u/Pictures/Promptcraft/gen_u1.png", .null⟩,
       [], []⟩ ∧
    serviceGenerate [("comfyui", .comfyui (some ⟨"http://h"⟩))] "comfyui"
        ⟨"p", "default", .obj []⟩
        ⟨[], .ok ⟨none, some "!!", none, .null⟩⟩
        ⟨some "/home/u", "u1", true, true⟩ =
      ⟨.ok ⟨none, some "!!", none, .null⟩, [],
       ["Warning: Failed to save base64 to file: base64 decode error"]⟩ := by
  constructor
  · have hs := c5_output_normalization.2.2.2.2
      [("comfyui", .comfyui (some ⟨"http://h"⟩))] "comfyui"
      (.comfyui (some ⟨"http://h"⟩)) ⟨"p", "default", .obj []⟩
      ⟨[], .ok ⟨none, some "QUJD", none, .null⟩⟩
      ⟨some "/home/u", "u1", true, true⟩ ⟨none, some "QUJD", none, .null⟩ rfl rfl
    have hn := c5_output_normalization.2.2.1 ⟨some "/home/u", "u1", true, true⟩
      ⟨none, some "QUJD", none, .null⟩ "QUJD"
      "/home/u/Pictures/Promptcraft/gen_u1.png" rfl (by decide)
      (c5_output_normalization.1 ⟨some "/home/u", "u1", true, true⟩ "QUJD"
        "/home/u" rfl rfl rfl (by decide))
    rw [hs, hn]
    rfl
  · have hs := c5_output_normalization.2.2.2.2
      [("comfyui", .comfyui (some ⟨"http://h"⟩))] "comfyui"
      (.comfyui (some ⟨"http://h"⟩)) ⟨"p", "default", .obj []⟩
      ⟨[], .ok ⟨none, some "!!", none, .null⟩⟩
      ⟨some "/home/u", "u1", true, true⟩ ⟨none, some "!!", none, .null⟩ rfl rfl
    have hn := c5_output_normalization.2.2.2.1 ⟨some "/home/u", "u1", true, true⟩
      ⟨none, some "!!", none, .null⟩ "!!" "base64 decode error" rfl (by decide)
      (c5_output_normalization.2.1 ⟨some "/home/u", "u1", true, true⟩ "!!" rfl)
    rw [hs, hn]
    rfl

/-- C3.  Along the Job Processor's update sequence on a freshly created
pending row — running, then either completed-with-result or
failed-with-error — started_at is written exactly once: the first running
update sets it and every later update (a repeated identical running
update included) leaves it untouched, because the SQL writes
COALESCE(started_at, _).  The running update changes none of
completed_at, result or error; they are first written by the terminal
update itself (completed sets completed_at and result, failed sets
completed_at and error), so none of them is ever set while the row is
still pending. -/
theorem c3_job_lifecycle_writes (j : JobRow) (hj : freshPending j)
    (now now2 : String) (r : Json) (e : String) :
    (jobUpdateRow now ⟨some "running", none, none⟩ j).started_at = some now ∧
    (jobUpdateRow now2 ⟨some "running", none, none⟩
        (jobUpdateRow now ⟨some "running", none, none⟩ j)).started_at = some now ∧
    (jobUpdateRow now2 ⟨some "completed", some r, none⟩
        (jobUpdateRow now ⟨some "running", none, none⟩ j)).started_at = some now ∧
    (jobUpdateRow now2 ⟨some "failed", none, some e⟩
        (jobUpdateRow now ⟨some "running", none, none⟩ j)).started_at = some now ∧
    (jobUpdateRow now ⟨some "running", none, none⟩ j).status = "running" ∧
    (jobUpdateRow now ⟨some "running", none, none⟩ j).result = none ∧
    (jobUpdateRow now ⟨some "running", none, none⟩ j).error = none ∧
    (jobUpdateRow now ⟨some "running", none, none⟩ j).completed_at = none ∧
    (jobUpdateRow now2 ⟨some "completed", some r, none⟩
        (jobUpdateRow now ⟨some "running", none, none⟩ j)) =
      { j with status := "completed", result := some r, error := none,
               started_at := some now, completed_at := some now2 } ∧
    (jobUpdateRow now2 ⟨some "failed", none, some e⟩
        (jobUpdateRow now ⟨some "running", none, none⟩ j)) =
      { j with status := "failed", result := none, error := some e,
               started_at := some now, completed_at := some now2 } := by
  obtain ⟨hs, hr, he, hsa, hca⟩ := hj
  obtain ⟨id, scene, status, data, res, err, created, started, completed⟩ := j
  simp only at hs hr he hsa hca
  subst hs hr he hsa hca
  refine ⟨rfl, rfl, rfl, rfl, rfl, rfl, rfl, rfl, rfl, rfl⟩

/-- C3 witness: the lifecycle facts at a concrete fresh pending row. -/
theorem c3_job_lifecycle_writes_witness :
    (jobUpdateRow "t1" ⟨some "running", none, none⟩
        ⟨"j1", none, "pending", .ok (.obj []), none, none, "t0", none, none⟩).started_at =
      some "t1" ∧
    (jobUpdateRow "t2" ⟨some "failed", none, some "boom"⟩
        (jobUpdateRow "t1" ⟨some "running", none, none⟩
          ⟨"j1", none, "pending", .ok (.obj []), none, none, "t0", none, none⟩)) =
      ⟨"j1", none, "failed", .ok (.obj []), none, some "boom", "t0", some "t1", some "t2"⟩ := by
  have h := c3_job_lifecycle_writes
    ⟨"j1", none, "pending", .ok (.obj []), none, none, "t0", none, none⟩
    ⟨rfl, rfl, rfl, rfl, rfl⟩ "t1" "t2" (.obj []) "boom"
  exact ⟨h.1, h.2.2.2.2.2.2.2.2.2⟩

/-! ### Job-store lemmas for the batch-processing claim -/

/-- jobUpdateRow never changes the row id. -/
theorem jobUpdateRow_id (now : String) (input : UpdateJobInput) (j : JobRow) :
    (jobUpdateRow now input j).id = j.id := by
  obtain ⟨st, res, err⟩ := input
  unfold jobUpdateRow
  cases st <;> cases res <;> cases err <;> rfl

/-- Looking up after an update-by-id: the updated first match for the
updated id, anything else unchanged. -/
theorem jobOpsGet_map_update (db : List JobRow) (id x now : String)
    (input : UpdateJobInput) :
    jobOpsGet (db.map (fun j => if j.id = id then jobUpdateRow now input j else j)) x =
      if x = id then (jobOpsGet db x).map (jobUpdateRow now input)
      else jobOpsGet db x := by
  induction db with
  | nil => simp [jobOpsGet]
  | cons j rest ih =>
    simp only [List.map_cons]
    by_cases hj : j.id = id
    · by_cases hx : x = id
      · subst hx
        have h1 : (jobUpdateRow now input j).id = x := by rw [jobUpdateRow_id, hj]
        simp [jobOpsGet, List.find?_cons, h1, hj]
      · have h1 : ¬ (jobUpdateRow now input j).id = x := by
          rw [jobUpdateRow_id, hj]; exact fun h => hx h.symm
        have h2 : ¬ j.id = x := by rw [hj]; exact fun h => hx h.symm
        have h3 : ¬ id = x := fun h => hx h.symm
        simpa [jobOpsGet, List.find?_cons, hj, h1, h2, h3, hx] using ih
    · by_cases hjx : j.id = x
      · have hx : ¬ x = id := fun h => hj (hjx ▸ h)
        simp [jobOpsGet, List.find?_cons, hj, hjx, hx]
      · simpa [jobOpsGet, List.find?_cons, hj, hjx] using ih

/-- The same lookup fact phrased through updMap. -/
theorem jobOpsGet_updMap (db : List JobRow) (id x now : String)
    (input : UpdateJobInput) :
    jobOpsGet (updMap db id now input) x =
      if x = id then (jobOpsGet db x).map (jobUpdateRow now input)
      else jobOpsGet db x :=
  jobOpsGet_map_update db id x now input

/-- A found id makes jobOpsUpdate succeed with the mapped table. -/
theorem jobOpsUpdate_of_found (db : List JobRow) (id now : String)
    (input : UpdateJobInput) (j0 : JobRow) (h : jobOpsGet db id = some j0) :
    jobOpsUpdate db id now input = .ok (updMap db id now input) := by
  unfold jobOpsUpdate
  rw [jobOpsGet_updMap]
  simp [h]

/-- A successful jobOpsUpdate is exactly the mapped table. -/
theorem jobOpsUpdate_ok_eq (db db' : List JobRow) (id now : String)
    (input : UpdateJobInput) (h : jobOpsUpdate db id now input = .ok db') :
    db' = updMap db id now input := by
  unfold jobOpsUpdate at h
  rcases h' : jobOpsGet (updMap db id now input) id with - | j
  · rw [h'] at h
    exact absurd h (by simp)
  · rw [h'] at h
    simpa using h.symm

/-- The store processJob leaves behind agrees with the original on every
other id. -/
theorem processJob_snd_get_ne
    (gen : String → GenerationRequest → Except String GenerationResult)
    (now : String) (db : List JobRow) (job : JobRow) (x : String)
    (hx : x ≠ job.id) :
    jobOpsGet (processJob gen now db job).2 x = jobOpsGet db x := by
  have hget : ∀ (d : List JobRow) (input : UpdateJobInput),
      jobOpsGet (updMap d job.id now input) x = jobOpsGet d x := by
    intro d input
    rw [jobOpsGet_updMap, if_neg hx]
  unfold processJob
  rcases h1 : jobOpsUpdate db job.id now ⟨some "running", none, none⟩ with e0 | db1
  · simp
  · have hdb1 := jobOpsUpdate_ok_eq _ _ _ _ _ h1
    subst hdb1
    rcases h3 : jobOutcome gen job with e | r
    · simp [h3, hget]
    · rcases h2 : jobOpsUpdate (updMap db job.id now ⟨some "running", none, none⟩)
          job.id now ⟨some "completed", some (resultToJson r), none⟩ with e2 | db2
      · simp [h3, h2, hget]
      · have hdb2 := jobOpsUpdate_ok_eq _ _ _ _ _ h2
        subst hdb2
        simp [h3, h2, hget]

/-- Each batch step only touches rows with the step's job id. -/
theorem processStep_get_ne
    (gen : String → GenerationRequest → Except String GenerationResult)
    (now : String) (db : List JobRow) (job : JobRow) (x : String)
    (hx : x ≠ job.id) :
    jobOpsGet (processStep gen now db job) x = jobOpsGet db x := by
  have hget : ∀ (d : List JobRow) (input : UpdateJobInput),
      jobOpsGet (updMap d job.id now input) x = jobOpsGet d x := by
    intro d input
    rw [jobOpsGet_updMap, if_neg hx]
  have hsnd := processJob_snd_get_ne gen now db job x hx
  unfold processStep
  rcases hp : processJob gen now db job with ⟨res, db1⟩
  rw [hp] at hsnd
  rcases res with e | u
  · rcases h2 : jobOpsUpdate db1 job.id now ⟨some "failed", none, some e⟩ with e2 | db2
    · simpa [h2] using hsnd
    · have hdb2 := jobOpsUpdate_ok_eq _ _ _ _ _ h2
      subst hdb2
      simpa [h2, hget] using hsnd
  · simpa using hsnd

/-- The terminal row a processed job ends in: failed-with-message on any
error, completed-with-result otherwise, in both cases after the running
transition. -/
def finalRowOf (gen : String → GenerationRequest → Except String GenerationResult)
    (now : String) (job : JobRow) : JobRow :=
  match jobOutcome gen job with
  | .error e => jobUpdateRow now ⟨some "failed", none, some e⟩
      (jobUpdateRow now ⟨some "running", none, none⟩ job)
  | .ok r => jobUpdateRow now ⟨some "completed", some (resultToJson r), none⟩
      (jobUpdateRow now ⟨some "running", none, none⟩ job)

/-- One batch step drives its own job to the terminal row. -/
theorem processStep_get_self
    (gen : String → GenerationRequest → Except String GenerationResult)
    (now : String) (db : List JobRow) (job : JobRow)
    (h : jobOpsGet db job.id = some job) :
    jobOpsGet (processStep gen now db job) job.id = some (finalRowOf gen now job) := by
  have hrun := jobOpsUpdate_of_found db job.id now ⟨some "running", none, none⟩ job h
  have hget1 : jobOpsGet (updMap db job.id now ⟨some "running", none, none⟩) job.id =
      some (jobUpdateRow now ⟨some "running", none, none⟩ job) := by
    rw [jobOpsGet_updMap]
    simp [h]
  unfold processStep processJob finalRowOf
  rcases h3 : jobOutcome gen job with e | r
  · have hfail := jobOpsUpdate_of_found _ job.id now ⟨some "failed", none, some e⟩ _ hget1
    simp only [hrun, h3, hfail]
    rw [jobOpsGet_updMap]
    simp [hget1]
  · have hcomp := jobOpsUpdate_of_found _ job.id now
      ⟨some "completed", some (resultToJson r), none⟩ _ hget1
    simp only [hrun, h3, hcomp]
    rw [jobOpsGet_updMap]
    simp [hget1]

/-- Jobs whose ids are absent from a batch are untouched by the whole
fold. -/
theorem foldl_processStep_get_ne
    (gen : String → GenerationRequest → Except String GenerationResult)
    (now : String) (batch : List JobRow) (db : List JobRow) (x : String)
    (h : ∀ b ∈ batch, b.id ≠ x) :
    jobOpsGet (batch.foldl (processStep gen now) db) x = jobOpsGet db x := by
  induction batch generalizing db with
  | nil => rfl
  | cons b rest ih =>
    rw [List.foldl_cons]
    calc jobOpsGet (rest.foldl (processStep gen now) (processStep gen now db b)) x
        = jobOpsGet (processStep gen now db b) x :=
          ih _ (fun c hc => h c (by simp [hc]))
      _ = jobOpsGet db x := processStep_get_ne gen now db b x (fun hc => h b (by simp) hc.symm)

/-- With unique ids, a row found in the store keeps being findable as
itself. -/
theorem jobOpsGet_of_mem_nodup (db : List JobRow) (job : JobRow)
    (hnd : (db.map JobRow.id).Nodup) (hmem : job ∈ db) :
    jobOpsGet db job.id = some job := by
  induction db with
  | nil => cases hmem
  | cons j rest ih =>
    rcases List.mem_cons.mp hmem with rfl | hmem'
    · simp [jobOpsGet, List.find?_cons]
    · have hne : ¬ j.id = job.id := by
        intro hcontra
        exact (List.nodup_cons.mp hnd).1 (hcontra ▸ List.mem_map_of_mem JobRow.id hmem')
      have := ih (List.nodup_cons.mp hnd).2 hmem'
      simpa [jobOpsGet, List.find?_cons, hne] using this

/-- The whole batch fold drives each batch job (unique ids) to its
terminal row. -/
theorem foldl_processStep_get_mem
    (gen : String → GenerationRequest → Except String GenerationResult)
    (now : String) (batch : List JobRow) (db : List JobRow) (job : JobRow)
    (hmem : job ∈ batch) (hnodup : (batch.map JobRow.id).Nodup)
    (h : jobOpsGet db job.id = some job) :
    jobOpsGet (batch.foldl (processStep gen now) db) job.id =
      some (finalRowOf gen now job) := by
  induction batch generalizing db with
  | nil => cases hmem
  | cons b rest ih =>
    rw [List.foldl_cons]
    rcases List.mem_cons.mp hmem with rfl | hmem'
    · have hrestne : ∀ c ∈ rest, c.id ≠ job.id := by
        intro c hc hcontra
        exact (List.nodup_cons.mp hnodup).1 (hcontra ▸ List.mem_map_of_mem JobRow.id hc)
      rw [foldl_processStep_get_ne gen now rest _ job.id hrestne]
      exact processStep_get_self gen now db job h
    · have hbne : job.id ≠ b.id := by
        intro hcontra
        exact (List.nodup_cons.mp hnodup).1
          (hcontra ▸ List.mem_map_of_mem JobRow.id hmem')
      have h' : jobOpsGet (processStep gen now db b) job.id = some job := by
        rw [processStep_get_ne gen now db b job.id hbne]
        exact h
      exact ih _ hmem' (List.nodup_cons.mp hnodup).2 h'

/-- The fetched batch is a sub-sequence of the store. -/
theorem fetchPending_sublist (db : List JobRow) :
    List.Sublist (fetchPending db) db :=
  (List.take_sublist _ _).trans (List.filter_sublist _)

/-- On a fresh pending row, running followed by a terminal update yields
the fully determined terminal row. -/
theorem run_then_terminal (j : JobRow) (hj : freshPending j) (now : String)
    (r : Json) (e : String) :
    jobUpdateRow now ⟨some "completed", some r, none⟩
        (jobUpdateRow now ⟨some "running", none, none⟩ j) =
      { j with status := "completed", result := some r, error := none,
               started_at := some now, completed_at := some now } ∧
    jobUpdateRow now ⟨some "failed", none, some e⟩
        (jobUpdateRow now ⟨some "running", none, none⟩ j) =
      { j with status := "failed", result := none, error := some e,
               started_at := some now, completed_at := some now } := by
  obtain ⟨hs, hr, he, hsa, hca⟩ := hj
  obtain ⟨id, scene, status, data, res, err, created, started, completed⟩ := j
  simp only at hs hr he hsa hca
  subst hs hr he hsa hca
  exact ⟨rfl, rfl⟩

/-- C4 (amended).  With unique job ids and freshly created pending rows,
one batch cycle drives every fetched job to a terminal state regardless
of the other jobs' outcomes: any processing error (an unparseable data
document, a missing provider or prompt field, or a generate failure)
leaves that job failed with the error's description stored, and a
successful generate leaves it completed with the serialized result.  A
job whose data carries a provider but no prompt fails with "Missing
prompt in job data", an error mentioning "prompt" (a job missing the
provider field fails with the provider message instead). -/
theorem c4_batch_error_isolation
    (gen : String → GenerationRequest → Except String GenerationResult)
    (now : String) (db : List JobRow) (hnd : (db.map JobRow.id).Nodup) :
    ∀ job ∈ fetchPending db, freshPending job →
      (∀ e, jobOutcome gen job = .error e →
        ∃ row, jobOpsGet (processPendingJobs gen now db) job.id = some row ∧
          row.status = "failed" ∧ row.error = some e ∧
          row.started_at = some now ∧ row.completed_at = some now ∧
          row.result = none) ∧
      (∀ r, jobOutcome gen job = .ok r →
        ∃ row, jobOpsGet (processPendingJobs gen now db) job.id = some row ∧
          row.status = "completed" ∧ row.result = some (resultToJson r) ∧
          row.error = none ∧ row.started_at = some now ∧
          row.completed_at = some now) ∧
      (∀ d, job.data = .ok d →
        ((d.get "provider").bind Json.asStr).isSome = true →
        (d.get "prompt").bind Json.asStr = none →
        jobOutcome gen job = .error "Missing prompt in job data" ∧
        containsSub "Missing prompt in job data" "prompt" = true) := by
  intro job hjob hfresh
  have hmemdb : job ∈ db := (fetchPending_sublist db).subset hjob
  have hndb : ((fetchPending db).map JobRow.id).Nodup :=
    List.Nodup.sublist (List.Sublist.map JobRow.id (fetchPending_sublist db)) hnd
  have hget0 : jobOpsGet db job.id = some job :=
    jobOpsGet_of_mem_nodup db job hnd hmemdb
  have hfin : jobOpsGet (processPendingJobs gen now db) job.id =
      some (finalRowOf gen now job) :=
    foldl_processStep_get_mem gen now (fetchPending db) db job hjob hndb hget0
  refine ⟨?_, ?_, ?_⟩
  · intro e h3
    have hF : finalRowOf gen now job =
        jobUpdateRow now ⟨some "failed", none, some e⟩
          (jobUpdateRow now ⟨some "running", none, none⟩ job) := by
      unfold finalRowOf
      rw [h3]
    rw [(run_then_terminal job hfresh now .null e).2] at hF
    exact ⟨_, hfin, by rw [hF], by rw [hF], by rw [hF], by rw [hF], by rw [hF]⟩
  · intro r h3
    have hF : finalRowOf gen now job =
        jobUpdateRow now ⟨some "completed", some (resultToJson r), none⟩
          (jobUpdateRow now ⟨some "running", none, none⟩ job) := by
      unfold finalRowOf
      rw [h3]
    rw [(run_then_terminal job hfresh now (resultToJson r) "e").1] at hF
    exact ⟨_, hfin, by rw [hF], by rw [hF], by rw [hF], by rw [hF], by rw [hF]⟩
  · intro d hd hprov hprompt
    rw [Option.isSome_iff_exists] at hprov
    obtain ⟨p, hp⟩ := hprov
    refine ⟨?_, by decide⟩
    unfold jobOutcome
    rw [hd]
    simp [hp, hprompt]

/-- C4 witness: a concrete store with one well-formed job whose generate
fails, one job lacking its prompt, and one succeeding job — all three end
terminal with the documented fields. -/
theorem c4_batch_error_isolation_witness :
    (∃ row, jobOpsGet (processPendingJobs
        (fun _ _ => .error "remote boom") "t1"
        [⟨"j1", none, "pending",
          .ok (.obj [("provider", .str "a1111"), ("prompt", .str "a cat")]),
          none, none, "t0", none, none⟩]) "j1" = some row ∧
      row.status = "failed" ∧ row.error = some "remote boom" ∧
      row.started_at = some "t1" ∧ row.completed_at = some "t1" ∧
      row.result = none) ∧
    (jobOutcome (fun _ _ => .error "remote boom")
        ⟨"j2", none, "pending", .ok (.obj [("provider", .str "a1111")]),
         none, none, "t0", none, none⟩ = .error "Missing prompt in job data" ∧
      containsSub "Missing prompt in job data" "prompt" = true) := by
  constructor
  · exact (c4_batch_error_isolation (fun _ _ => .error "remote boom") "t1"
      [⟨"j1", none, "pending",
        .ok (.obj [("provider", .str "a1111"), ("prompt", .str "a cat")]),
        none, none, "t0", none, none⟩] (by simp)
      ⟨"j1", none, "pending",
        .ok (.obj [("provider", .str "a1111"), ("prompt", .str "a cat")]),
        none, none, "t0", none, none⟩ (by simp [fetchPending])
      ⟨rfl, rfl, rfl, rfl, rfl⟩).1 "remote boom" rfl
  · exact (c4_batch_error_isolation (fun _ _ => .error "remote boom") "t1"
      [⟨"j2", none, "pending", .ok (.obj [("provider", .str "a1111")]),
        none, none, "t0", none, none⟩] (by simp)
      ⟨"j2", none, "pending", .ok (.obj [("provider", .str "a1111")]),
        none, none, "t0", none, none⟩ (by simp [fetchPending])
      ⟨rfl, rfl, rfl, rfl, rfl⟩).2.2 (.obj [("provider", .str "a1111")]) rfl
      (by decide) rfl

/-- C4 counterexample: a job whose data lacks both fields also lacks
'prompt', yet it ends failed with "Missing provider in job data" — an
error that does not mention "prompt" (provider is checked first). -/
theorem c4_missing_prompt_counterexample :
    jobOutcome (fun _ _ => .error "unused")
        ⟨"j1", none, "pending", .ok (.obj []), none, none, "t0", none, none⟩ =
      .error "Missing provider in job data" ∧
    (jobOpsGet (processPendingJobs (fun _ _ => .error "unused") "t1"
        [⟨"j1", none, "pending", .ok (.obj []), none, none, "t0", none, none⟩])
        "j1").map JobRow.error =
      some (some "Missing provider in job data") ∧
    containsSub "Missing provider in job data" "prompt" = false :=
  ⟨rfl, rfl, by decide⟩

end Promptcraft
